import Mathlib

/-!
# Object detection firmware: responder and inference cycle

A shallow embedding of `main/detection_responder.cc` and `main/main_functions.cc`.

* Arithmetic on `float` and `double` is IEEE-754 binary32 / binary64 with
  round-to-nearest, ties-to-even.  A finite floating value is represented by the
  rational number it denotes; an operation returns `none` when its result is not
  finite.  NaN and infinite inputs are outside the model.
* Calls into the camera, display, heap and interpreter libraries are recorded as
  events, and what those calls return is supplied by an environment record.
* Pointers are modelled by their null-ness.  Dereferencing a null pointer is
  modelled as a fault which ends execution; a failed `assert` aborts.
-/

namespace ObjectDetection

/-! ## Floating point arithmetic used by the score conversion -/

/-- Nearest integer to `x`, ties going to the even neighbour. -/
def roundHalfEven (x : ℚ) : ℤ :=
  let f := ⌊x⌋
  let r := x - f
  if r < 1 / 2 then f
  else if 1 / 2 < r then f + 1
  else if f % 2 = 0 then f else f + 1

/-- Spacing of the binary format with `p` significand bits and least normal
exponent `emin`, in the binade of `x` (the subnormal spacing below `2 ^ emin`). -/
def ulp (p : ℕ) (emin : ℤ) (x : ℚ) : ℚ :=
  2 ^ (max (Int.log 2 |x|) emin - ((p : ℤ) - 1))

/-- Round `x` to a multiple of the spacing around it, exponent range unbounded above. -/
def roundCore (p : ℕ) (emin : ℤ) (x : ℚ) : ℚ :=
  roundHalfEven (x / ulp p emin x) * ulp p emin x

/-- Round `x` into the binary format `(p, emin, emax)`; `none` when the rounded
value overflows the format (the result would be an infinity). -/
def roundBinary (p : ℕ) (emin emax : ℤ) (x : ℚ) : Option ℚ :=
  let r := roundCore p emin x
  if |r| < 2 ^ (emax + 1) then some r else none

/-- Rounding to `float`. -/
def binary32 (x : ℚ) : Option ℚ := roundBinary 24 (-126) 127 x

/-- Rounding to `double`. -/
def binary64 (x : ℚ) : Option ℚ := roundBinary 53 (-1022) 1023 x

/-- Truncation toward zero. -/
def truncate (x : ℚ) : ℤ := if 0 ≤ x then ⌊x⌋ else -⌊-x⌋

/-- Conversion of a `double` to `int` (32 bits): truncation toward zero, undefined
(`none`) when the truncated value is not representable. -/
def double_to_int (x : ℚ) : Option ℤ :=
  let t := truncate x
  if -2 ^ 31 ≤ t ∧ t < 2 ^ 31 then some t else none

/-- Value of the expression `(score) * 100 + 0.5` for a `float` score: the product
is formed in `float` (the `int` 100 converts exactly), the sum in `double`. -/
def score_value (score : ℚ) : Option ℚ :=
  (binary32 (score * 100)).bind fun y => binary64 (y + 1 / 2)

/-- The initialiser `int score_int = (score) * 100 + 0.5;` of `RespondToDetection`. -/
def score_int (score : ℚ) : Option ℤ :=
  (score_value score).bind double_to_int

/-! ## printf-style formatting -/

/-- Decimal digits of a natural number, most significant first (`fuel` bounds the length). -/
def decimalDigits : ℕ → ℕ → List Char
  | 0, _ => []
  | fuel + 1, n =>
    (if n < 10 then [] else decimalDigits fuel (n / 10)) ++ [Char.ofNat (48 + n % 10)]

/-- Output of the `%d` conversion. -/
def formatInt (i : ℤ) : List Char :=
  if i < 0 then '-' :: decimalDigits (i.natAbs + 1) i.natAbs
  else decimalDigits (i.natAbs + 1) i.natAbs

/-- Expansion of a format string over integer arguments: `%%` prints a percent
sign, `%d` and `%zu` print the next argument, any other character prints itself. -/
def formatChars : List Char → List ℤ → List Char
  | '%' :: '%' :: rest, args => '%' :: formatChars rest args
  | '%' :: 'd' :: rest, a :: args => formatInt a ++ formatChars rest args
  | '%' :: 'z' :: 'u' :: rest, a :: args => formatInt a ++ formatChars rest args
  | c :: rest, args => c :: formatChars rest args
  | [], _ => []

/-- The text printed for a format string and its arguments. -/
def format (fmt : String) (args : List ℤ) : String :=
  String.mk (formatChars fmt.toList args)

/-! ## Events, pointers and outcomes -/

/-- A pointer, as far as the program inspects it: null or not. -/
inductive Ptr where
  | null
  | valid
  deriving DecidableEq

/-- Build-time constants which come from headers outside the two source files. -/
structure Config where
  /-- Supported schema version of the inference runtime. -/
  TFLITE_SCHEMA_VERSION : ℤ
  /-- Whether `CONFIG_IDF_TARGET_ESP32S3` is defined. -/
  esp32s3 : Bool
  /-- Whether `CLI_ONLY_INFERENCE` is defined. -/
  cli_only_inference : Bool
  /-- Whether `COLLECT_CPU_STATS` is defined. -/
  collect_cpu_stats : Bool
  kNumCols : ℕ
  kNumRows : ℕ
  kNumChannels : ℕ
  /-- Value of `sizeof(lv_color_t)`. -/
  sizeof_lv_color_t : ℕ

/-- Calls that leave the two source files, in the order they happen, together with the
call statements of `create_gui` and `RespondToDetection` and a failed `assert`. -/
inductive Event where
  | bsp_display_start_with_config
  | bsp_display_backlight_on
  | bsp_display_lock (timeout_ms : ℕ)
  | bsp_display_unlock
  | heap_caps_get_free_size
  | heap_caps_malloc (size : ℕ)
  | printf (fmt : String) (args : List ℤ)
  | MicroPrintf (fmt : String) (args : List (Option ℤ))
  | lv_scr_act
  | lv_canvas_create
  | lv_canvas_set_buffer (w h : ℕ)
  | lv_obj_align
  | lv_led_create
  | lv_label_create
  | lv_label_set_text_static (text : String)
  | lv_obj_align_to
  | image_provider_get_display_buf
  | memcpy (bytes : ℕ)
  | lv_obj_invalidate
  | assert_fail
  | create_gui
  | RespondToDetection (cup_score laptop_score unknown_score : ℚ)
  | GetModel
  | AddOp (name : String)
  | MicroInterpreter (arena_size : ℕ)
  | AllocateTensors
  | interpreter_input (index : ℕ)
  | interpreter_output (index : ℕ)
  | InitCamera
  | GetImage (cols rows channels : ℕ)
  | Invoke
  | esp_timer_get_time
  | vTaskDelay (ticks : ℕ)
  deriving DecidableEq

/-- How a call ended: it returned, a failed `assert` aborted the program, or a null
pointer was dereferenced. -/
inductive Ctl where
  | returned
  | aborted
  | fault
  deriving DecidableEq

/-- State, events and ending of a call. -/
structure Outcome (σ : Type) where
  ctl : Ctl
  st : σ
  trace : List Event

/-! ## detection_responder.cc -/

def IMG_WD : ℕ := 96 * 2
def IMG_HT : ℕ := 96 * 2

/-- The file-level statics of `detection_responder.cc`. -/
structure DisplayState where
  camera_canvas : Ptr
  status_indicator : Ptr
  label : Ptr
  canvas_buf : Ptr
  deriving DecidableEq

/-- All four statics are initialised to `NULL`. -/
def DisplayState.init : DisplayState := ⟨.null, .null, .null, .null⟩

/-- What the library calls made during one call of `RespondToDetection` return. -/
structure DisplayEnv where
  /-- Free heap sizes reported to the first `check_memory_usage`. -/
  free_before : ℕ × ℕ
  /-- Free heap sizes reported to the second `check_memory_usage`. -/
  free_after : ℕ × ℕ
  /-- Result of `heap_caps_malloc` for the canvas buffer. -/
  canvas_alloc : Ptr
  /-- Result of `lv_canvas_create`. -/
  canvas_obj : Ptr
  /-- Result of `lv_led_create`. -/
  led_obj : Ptr
  /-- Result of `lv_label_create`. -/
  label_obj : Ptr
  /-- Result of `image_provider_get_display_buf`. -/
  display_buf : Ptr

def check_memory_usage (free : ℕ × ℕ) : List Event :=
  [.heap_caps_get_free_size, .heap_caps_get_free_size,
   .printf "Free heap size: %zu bytes\n" [free.1],
   .printf "Free SPI heap size: %zu bytes\n" [free.2]]

/-- Second half of `create_gui`, from the creation of the canvas on; `t` holds the
events so far. -/
def create_gui_objects (env : DisplayEnv) (st : DisplayState) (t : List Event) :
    Outcome DisplayState :=
  let st1 := { st with camera_canvas := env.canvas_obj }
  let t1 := t ++ [.lv_scr_act, .lv_canvas_create]
  if st1.camera_canvas = .null then ⟨.aborted, st1, t1 ++ [.assert_fail]⟩
  else
    let t2 := t1 ++ [.lv_canvas_set_buffer IMG_WD IMG_HT, .lv_obj_align,
      .lv_scr_act, .lv_led_create]
    let st2 := { st1 with status_indicator := env.led_obj }
    if st2.status_indicator = .null then ⟨.aborted, st2, t2 ++ [.assert_fail]⟩
    else
      let t3 := t2 ++ [.lv_obj_align, .lv_scr_act, .lv_label_create]
      let st3 := { st2 with label := env.label_obj }
      if st3.label = .null then ⟨.aborted, st3, t3 ++ [.assert_fail]⟩
      else
        ⟨.returned, st3,
          t3 ++ [.lv_label_set_text_static "Status: Unknown", .lv_obj_align_to,
            .bsp_display_unlock] ++ check_memory_usage env.free_after⟩

def create_gui (cfg : Config) (env : DisplayEnv) (st : DisplayState) : Outcome DisplayState :=
  let t0 := [Event.bsp_display_start_with_config, .bsp_display_backlight_on,
    .bsp_display_lock 0] ++ check_memory_usage env.free_before
  if st.canvas_buf = .null then
    let t1 := t0 ++ [.heap_caps_malloc (IMG_WD * IMG_HT * cfg.sizeof_lv_color_t)]
    let st1 := { st with canvas_buf := env.canvas_alloc }
    if st1.canvas_buf = .null then
      ⟨.returned, st1,
        t1 ++ [.printf "Failed to allocate SPI memory for canvas buffer\n" [],
          .bsp_display_unlock]⟩
    else create_gui_objects env st1 t1
  else create_gui_objects env st t0

/-- The part of `RespondToDetection` after the lazy creation of the display objects;
`t` holds the events so far. -/
def respond_update (ints : List (Option ℤ)) (env : DisplayEnv) (st : DisplayState)
    (t : List Event) : Outcome DisplayState :=
  let t1 := t ++ [.image_provider_get_display_buf]
  if env.display_buf = .null then
    ⟨.returned, st, t1 ++ [.printf "Failed to get display buffer\n" []]⟩
  else
    let t2 := t1 ++ [.bsp_display_lock 0]
    let t3 :=
      if st.canvas_buf ≠ .null then t2 ++ [.memcpy (IMG_WD * IMG_HT * 2), .lv_obj_invalidate]
      else t2 ++ [.printf "Canvas buffer is NULL\n" []]
    ⟨.returned, st,
      t3 ++ [.bsp_display_unlock,
        .MicroPrintf "cup score:%d%%, laptop score:%d%%, unknown score:%d%%" ints]⟩

/-- `RespondToDetection`, as compiled with `DISPLAY_SUPPORT`; the source has no definition
of the function for a build without it. -/
def RespondToDetection (cfg : Config) (cup_score laptop_score unknown_score : ℚ)
    (env : DisplayEnv) (st : DisplayState) : Outcome DisplayState :=
  let cup_score_int := score_int cup_score
  let laptop_score_int := score_int laptop_score
  let unknown_score_int := score_int unknown_score
  let ints := [cup_score_int, laptop_score_int, unknown_score_int]
  if st.camera_canvas = .null then
    let r := create_gui cfg env st
    match r.ctl with
    | .returned =>
      if r.st.camera_canvas = .null then
        ⟨.returned, r.st, Event.create_gui :: r.trace ++ [.printf "Failed to create GUI\n" []]⟩
      else respond_update ints env r.st (Event.create_gui :: r.trace)
    | c => ⟨c, r.st, Event.create_gui :: r.trace⟩
  else respond_update ints env st []

/-- One call of `RespondToDetection`: its arguments and what the library returns. -/
structure Call where
  cup_score : ℚ
  laptop_score : ℚ
  unknown_score : ℚ
  env : DisplayEnv

/-- Successive calls of `RespondToDetection`; the sequence ends when a call does not return. -/
def respond_calls (cfg : Config) : List Call → DisplayState → Outcome DisplayState
  | [], st => ⟨.returned, st, []⟩
  | c :: cs, st =>
    let r := RespondToDetection cfg c.cup_score c.laptop_score c.unknown_score c.env st
    match r.ctl with
    | .returned =>
      let r2 := respond_calls cfg cs r.st
      ⟨r2.ctl, r2.st, r.trace ++ r2.trace⟩
    | _ => r

/-- Number of executions of `create_gui` recorded in a trace. -/
def create_gui_runs : List Event → ℕ
  | [] => 0
  | .create_gui :: es => create_gui_runs es + 1
  | _ :: es => create_gui_runs es

/-- Number of leading calls in which the canvas buffer allocation fails. -/
def failed_allocs (calls : List Call) : ℕ :=
  (calls.takeWhile fun c => c.env.canvas_alloc = .null).length

/-- The events written by `MicroPrintf`. -/
def micro_events (t : List Event) : List Event :=
  t.filter fun e => match e with
    | .MicroPrintf _ _ => true
    | _ => false

/-- The arguments of a `MicroPrintf` call when each of them is a defined value. -/
def defined_args : List (Option ℤ) → Option (List ℤ)
  | [] => some []
  | none :: _ => none
  | some a :: rest => (defined_args rest).map (a :: ·)

/-- Text of a `MicroPrintf` event whose arguments are all defined. -/
def Event.line : Event → Option String
  | .MicroPrintf fmt args => (defined_args args).map (format fmt)
  | _ => none

/-- The lines written to the log by `MicroPrintf`. -/
def log_lines (t : List Event) : List String := t.filterMap Event.line

/-- Events which change what the display shows or the objects it is built from. -/
def Event.mutates_display : Event → Bool
  | .lv_canvas_create | .lv_canvas_set_buffer _ _ | .lv_obj_align | .lv_led_create
  | .lv_label_create | .lv_label_set_text_static _ | .lv_obj_align_to | .memcpy _
  | .lv_obj_invalidate => true
  | _ => false

/-- Check the lock discipline along a trace, starting with the lock held or not:
no lock while held, no unlock while free, no display mutation while free.
Returns whether the lock is held at the end, `none` if the discipline is broken. -/
def lock_check : Bool → List Event → Option Bool
  | held, [] => some held
  | held, .bsp_display_lock _ :: es => if held then none else lock_check true es
  | held, .bsp_display_unlock :: es => if held then lock_check false es else none
  | held, e :: es => if e.mutates_display && !held then none else lock_check held es

/-- An example build: schema version 3, ESP32-S3 target, camera loop enabled, no CPU
statistics, 96 x 96 single-channel frames, two-byte colours. -/
def example_config : Config := ⟨3, true, false, false, 96, 96, 1, 2⟩

/-- Library results with every allocation and object creation succeeding. -/
def env_ok : DisplayEnv :=
  ⟨(200000, 8000000), (190000, 7900000), .valid, .valid, .valid, .valid, .valid⟩

/-- Library results with the canvas buffer allocation failing. -/
def env_alloc_fails : DisplayEnv :=
  ⟨(200000, 8000000), (200000, 8000000), .null, .valid, .valid, .valid, .valid⟩

/-! ## main_functions.cc -/

def scratchBufSize (cfg : Config) : ℕ := if cfg.esp32s3 then 150 * 1024 else 0

def kTensorArenaSize (cfg : Config) : ℕ := 100 * 1024 + scratchBufSize cfg

/-- The globals of `main_functions.cc`, the function-level static interpreter of `setup`,
the contents of the input tensor, and the statics of the responder. -/
structure MainState where
  model : Ptr
  interpreter : Ptr
  input : Ptr
  tensor_arena : Ptr
  /-- Whether `static_interpreter` has been constructed. -/
  static_interpreter : Bool
  /-- The elements of `input->data.int8`. -/
  input_data : ℕ → ℤ
  display : DisplayState

/-- State at program start: null globals, whatever the memory holds. -/
def MainState.init (input_data : ℕ → ℤ) : MainState :=
  ⟨.null, .null, .null, .null, false, input_data, DisplayState.init⟩

/-- What the library calls made by `setup` return. -/
structure SetupEnv where
  /-- Result of `model->version()`. -/
  model_version : ℤ
  /-- Result of `heap_caps_malloc` for the tensor arena. -/
  arena_alloc : Ptr
  /-- Whether `AllocateTensors` returns `kTfLiteOk`. -/
  allocate_ok : Bool
  /-- Result of `interpreter->input(0)`. -/
  input_tensor : Ptr
  /-- Whether `InitCamera` returns `kTfLiteOk`. -/
  init_camera_ok : Bool

/-- The operator registrations of `setup`, in order. -/
def register_ops : List Event :=
  [.AddOp "Conv2D", .AddOp "FullyConnected", .AddOp "MaxPool2D", .AddOp "Softmax",
   .AddOp "Quantize", .AddOp "Dequantize", .AddOp "DepthwiseConv2D", .AddOp "Reshape",
   .AddOp "AveragePool2D", .AddOp "Mul", .AddOp "Add", .AddOp "Sub", .AddOp "Div",
   .AddOp "Mean", .AddOp "Rsqrt"]

/-- The part of `setup` after the tensor arena is in place. -/
def setup_interpreter (cfg : Config) (env : SetupEnv) (st : MainState) (t : List Event) :
    Outcome MainState :=
  let t1 := t ++ register_ops ++
    (if st.static_interpreter then [] else [.MicroInterpreter (kTensorArenaSize cfg)])
  let st1 := { st with static_interpreter := true, interpreter := .valid }
  let t2 := t1 ++ [.AllocateTensors]
  if !env.allocate_ok then
    ⟨.returned, st1, t2 ++ [.MicroPrintf "AllocateTensors() failed" []]⟩
  else
    let st2 := { st1 with input := env.input_tensor }
    let t3 := t2 ++ [.interpreter_input 0]
    if cfg.cli_only_inference then ⟨.returned, st2, t3⟩
    else if !env.init_camera_ok then
      ⟨.returned, st2, t3 ++ [.InitCamera, .MicroPrintf "InitCamera failed\n" []]⟩
    else ⟨.returned, st2, t3 ++ [.InitCamera]⟩

def setup (cfg : Config) (env : SetupEnv) (st : MainState) : Outcome MainState :=
  let st0 := { st with model := .valid }
  let t0 := [Event.GetModel]
  if env.model_version ≠ cfg.TFLITE_SCHEMA_VERSION then
    ⟨.returned, st0,
      t0 ++ [.MicroPrintf "Model provided is schema version %d not equal to supported version %d."
        [some env.model_version, some cfg.TFLITE_SCHEMA_VERSION]]⟩
  else if st0.tensor_arena = .null then
    let st1 := { st0 with tensor_arena := env.arena_alloc }
    let t1 := t0 ++ [.heap_caps_malloc (kTensorArenaSize cfg)]
    if st1.tensor_arena = .null then
      ⟨.returned, st1,
        t1 ++ [.printf "Couldn't allocate memory of %d bytes\n" [kTensorArenaSize cfg]]⟩
    else
      setup_interpreter cfg env st1
        (t1 ++ [.printf "Allocated %d bytes for tensor arena\n" [kTensorArenaSize cfg]])
  else setup_interpreter cfg env st0 t0

/-- What the library and the unfinished score extraction yield during one cycle. -/
structure CycleEnv where
  /-- Whether `GetImage` returns `kTfLiteOk` (used by `loop` only). -/
  capture_ok : Bool
  /-- Contents of the input tensor after `GetImage` (used by `loop` only). -/
  frame : ℕ → ℤ
  /-- Whether `Invoke` returns `kTfLiteOk`. -/
  invoke_ok : Bool
  /-- Contents of the input tensor after `Invoke`, from its contents before. -/
  after_invoke : (ℕ → ℤ) → (ℕ → ℤ)
  /-- Timing figures printed when CPU statistics are collected. -/
  cpu_stats : ℕ → ℤ
  /-- The variables `cup_score_f`, `laptop_score_f`, `unknown_score_f`, which the source
  leaves to a block still to be written. -/
  cup_score_f : ℚ
  laptop_score_f : ℚ
  unknown_score_f : ℚ
  display : DisplayEnv

/-- Common tail of `loop` and `run_inference`: fetch the output tensor and respond. -/
def respond_step (cfg : Config) (env : CycleEnv) (st : MainState) (t : List Event) :
    Outcome MainState :=
  let r := RespondToDetection cfg env.cup_score_f env.laptop_score_f env.unknown_score_f
    env.display st.display
  ⟨r.ctl, { st with display := r.st },
    t ++ [.interpreter_output 0,
      .RespondToDetection env.cup_score_f env.laptop_score_f env.unknown_score_f] ++ r.trace⟩

/-- The statement `if (kTfLiteOk != interpreter->Invoke()) MicroPrintf("Invoke failed.");`. -/
def invoke_step (env : CycleEnv) : List Event :=
  Event.Invoke :: (if env.invoke_ok then [] else [.MicroPrintf "Invoke failed." []])

def loop (cfg : Config) (env : CycleEnv) (st : MainState) : Outcome MainState :=
  if st.input = .null then ⟨.fault, st, []⟩
  else
    let t1 := Event.GetImage cfg.kNumCols cfg.kNumRows cfg.kNumChannels ::
      (if env.capture_ok then [] else [.MicroPrintf "Image capture failed." []])
    let st1 := { st with input_data := env.frame }
    if st1.interpreter = .null then ⟨.fault, st1, t1⟩
    else
      let st2 := { st1 with input_data := env.after_invoke st1.input_data }
      let r := respond_step cfg env st2 (t1 ++ invoke_step env)
      match r.ctl with
      | .returned => ⟨.returned, r.st, r.trace ++ [.vTaskDelay 2]⟩
      | _ => r

/-- Conversion of an `int` value to `int8_t`: reduction modulo 256 into `[-128, 127]`. -/
def to_int8 (v : ℕ) : ℤ :=
  let b := v % 256
  if b < 128 then (b : ℤ) else (b : ℤ) - 256

/-- The first `n` iterations of the copy loop of `run_inference`: element `i` of the input
tensor becomes byte `i` of `ptr` with its top bit flipped. -/
def copy_loop (ptr : ℕ → ℕ) : ℕ → (ℕ → ℤ) → (ℕ → ℤ)
  | 0, data => data
  | i + 1, data => Function.update (copy_loop ptr i data) i (to_int8 ((ptr i % 256) ^^^ 0x80))

/-- The timing output of `run_inference` when CPU statistics are collected. -/
def cpu_stats_lines (stats : ℕ → ℤ) : List Event :=
  [.esp_timer_get_time,
   .printf "Total time = %lld\n" [stats 0],
   .printf "FC time = %lld\n" [stats 1],
   .printf "DC time = %lld\n" [stats 2],
   .printf "conv time = %lld\n" [stats 3],
   .printf "Pooling time = %lld\n" [stats 4],
   .printf "add time = %lld\n" [stats 5],
   .printf "mul time = %lld\n" [stats 6]]

def run_inference (cfg : Config) (ptr : ℕ → ℕ) (env : CycleEnv) (st : MainState) :
    Outcome MainState :=
  if 0 < cfg.kNumCols * cfg.kNumRows ∧ st.input = .null then ⟨.fault, st, []⟩
  else
    let st1 := { st with
      input_data := copy_loop ptr (cfg.kNumCols * cfg.kNumRows) st.input_data }
    let t1 := if cfg.collect_cpu_stats then [Event.esp_timer_get_time] else []
    if st1.interpreter = .null then ⟨.fault, st1, t1⟩
    else
      let st2 := { st1 with input_data := env.after_invoke st1.input_data }
      let t2 := t1 ++ invoke_step env ++
        (if cfg.collect_cpu_stats then cpu_stats_lines env.cpu_stats else [])
      respond_step cfg env st2 t2

/-- One cycle after `setup`: a pass of `loop`, or a call of `run_inference` on a buffer. -/
inductive Cycle where
  | loop (env : CycleEnv)
  | run_inference (ptr : ℕ → ℕ) (env : CycleEnv)

def Cycle.run (cfg : Config) : Cycle → MainState → Outcome MainState
  | .loop env, st => ObjectDetection.loop cfg env st
  | .run_inference ptr env, st => ObjectDetection.run_inference cfg ptr env st

/-- Successive cycles; the sequence ends when a cycle does not return. -/
def run_cycles (cfg : Config) : List Cycle → MainState → Outcome MainState
  | [], st => ⟨.returned, st, []⟩
  | c :: cs, st =>
    let r := c.run cfg st
    match r.ctl with
    | .returned =>
      let r2 := run_cycles cfg cs r.st
      ⟨r2.ctl, r2.st, r.trace ++ r2.trace⟩
    | _ => r

/-- Number of calls of `Invoke` recorded in a trace. -/
def invocations : List Event → ℕ
  | [] => 0
  | .Invoke :: es => invocations es + 1
  | _ :: es => invocations es

/-- Number of constructions of the interpreter recorded in a trace. -/
def constructions : List Event → ℕ
  | [] => 0
  | .MicroInterpreter _ :: es => constructions es + 1
  | _ :: es => constructions es

/-- Number of calls of `RespondToDetection` made by the cycle functions in a trace. -/
def responses : List Event → ℕ
  | [] => 0
  | .RespondToDetection _ _ _ :: es => responses es + 1
  | _ :: es => responses es

/-- Library results for a `setup` whose model has schema version 2. -/
def setup_env_old_schema : SetupEnv := ⟨2, .valid, true, .valid, true⟩

/-- Library results for a `setup` in which the arena allocation fails. -/
def setup_env_no_arena : SetupEnv := ⟨3, .null, true, .valid, true⟩

/-- A state as `setup` leaves it when everything succeeded. -/
def ready_state : MainState :=
  ⟨.valid, .valid, .valid, .valid, true, fun _ => 0, DisplayState.init⟩

/-- Number of calls of `vTaskDelay` recorded in a trace. -/
def delays : List Event → ℕ
  | [] => 0
  | .vTaskDelay _ :: es => delays es + 1
  | _ :: es => delays es

/-- Number of failed `assert`s recorded in a trace. -/
def assert_failures : List Event → ℕ
  | [] => 0
  | .assert_fail :: es => assert_failures es + 1
  | _ :: es => assert_failures es

/-- Library results with `lv_canvas_create` returning null. -/
def env_no_canvas : DisplayEnv :=
  ⟨(200000, 8000000), (200000, 8000000), .valid, .null, .valid, .valid, .valid⟩

/-- A cycle in which capture and invocation succeed and `lv_canvas_create` returns null. -/
def cycle_canvas_fails : CycleEnv :=
  ⟨true, fun _ => 0, true, id, fun _ => 0, 1 / 2, 1 / 4, 1 / 4, env_no_canvas⟩

/-- A cycle in which the capture fails and the invocation succeeds. -/
def cycle_capture_fails : CycleEnv :=
  ⟨false, fun _ => 0, true, id, fun _ => 0, 1 / 2, 1 / 4, 1 / 4, env_ok⟩

/-! ## Rounding -/

theorem floor_le_roundHalfEven (x : ℚ) : ⌊x⌋ ≤ roundHalfEven x := by
  unfold roundHalfEven
  simp only
  split_ifs <;> omega

theorem roundHalfEven_le_ceil (x : ℚ) : roundHalfEven x ≤ ⌈x⌉ := by
  unfold roundHalfEven
  simp only
  have hfc : ⌊x⌋ ≤ ⌈x⌉ := Int.floor_le_ceil x
  have key : (1 : ℚ) / 2 ≤ x - ⌊x⌋ → ⌊x⌋ + 1 ≤ ⌈x⌉ := by
    intro h
    have : ⌊x⌋ < ⌈x⌉ := by
      rw [Int.lt_ceil]
      linarith
    omega
  split_ifs with h1 h2 h3
  · exact hfc
  · exact key (le_of_lt h2)
  · exact hfc
  · exact key (not_lt.mp h1)

theorem le_roundHalfEven {x : ℚ} {n : ℤ} (h : (n : ℚ) ≤ x) : n ≤ roundHalfEven x :=
  le_trans (Int.le_floor.mpr h) (floor_le_roundHalfEven x)

theorem roundHalfEven_le {x : ℚ} {n : ℤ} (h : x ≤ (n : ℚ)) : roundHalfEven x ≤ n :=
  le_trans (roundHalfEven_le_ceil x) (Int.ceil_le.mpr h)

theorem roundHalfEven_of_near {x : ℚ} {n : ℤ} (h : |x - n| < 1 / 2) : roundHalfEven x = n := by
  rw [abs_lt] at h
  obtain ⟨hl, hr⟩ := h
  unfold roundHalfEven
  simp only
  have hf : (⌊x⌋ : ℚ) ≤ x := Int.floor_le x
  have hf2 : x < ⌊x⌋ + 1 := Int.lt_floor_add_one x
  have c1 : (⌊x⌋ : ℚ) < n + 1 / 2 := by linarith
  have c2 : (n : ℚ) - 1 / 2 - 1 < ⌊x⌋ := by linarith
  have d1 : ⌊x⌋ ≤ n := by
    by_contra hc
    have : n + 1 ≤ ⌊x⌋ := by omega
    have : ((n + 1 : ℤ) : ℚ) ≤ ⌊x⌋ := by exact_mod_cast this
    push_cast at this
    linarith
  have d2 : n - 1 ≤ ⌊x⌋ := by
    by_contra hc
    have : ⌊x⌋ + 2 ≤ n := by omega
    have : ((⌊x⌋ + 2 : ℤ) : ℚ) ≤ n := by exact_mod_cast this
    push_cast at this
    linarith
  rcases (by omega : ⌊x⌋ = n ∨ ⌊x⌋ = n - 1) with e | e
  · rw [e]
    rw [if_pos hr]
  · rw [e]
    have h1 : ¬ (x - ((n - 1 : ℤ) : ℚ) < 1 / 2) := by push_cast; linarith
    have h2 : 1 / 2 < x - ((n - 1 : ℤ) : ℚ) := by push_cast; linarith
    simp only [h1, h2, if_true, if_false]
    ring

theorem roundHalfEven_of_tie {x : ℚ} {n : ℤ} (h : |x - n| = 1 / 2) (hn : n % 2 = 0) :
    roundHalfEven x = n := by
  unfold roundHalfEven
  simp only
  rcases (abs_eq (by norm_num : (0 : ℚ) ≤ 1 / 2)).mp h with h | h
  · have hf : ⌊x⌋ = n := by
      rw [Int.floor_eq_iff]
      constructor <;> linarith
    rw [hf, if_neg (by linarith), if_neg (by linarith), if_pos hn]
  · have hf : ⌊x⌋ = n - 1 := by
      rw [Int.floor_eq_iff]
      push_cast
      constructor <;> linarith
    rw [hf, if_neg (by push_cast; linarith), if_neg (by push_cast; linarith), if_neg (by omega)]
    ring

theorem ulp_pos (p : ℕ) (emin : ℤ) (x : ℚ) : 0 < ulp p emin x := by
  unfold ulp
  positivity

/-- Below `2 ^ E` the spacing divides `2 ^ (E - p)`. -/
theorem ulp_dvd {p : ℕ} {emin E : ℤ} {x : ℚ} (hx : |x| < 2 ^ E) (hE : 0 < E)
    (hmin : emin < E) :
    ∃ k : ℕ, (2 : ℚ) ^ (E - p) = (2 ^ k : ℕ) * ulp p emin x := by
  have hlog : Int.log 2 |x| < E := by
    rcases eq_or_lt_of_le (abs_nonneg x) with h0 | hpos
    · rw [← h0, Int.log_zero_right]
      exact hE
    · exact (Int.lt_zpow_iff_log_lt (R := ℚ) (b := 2) (by norm_num) hpos (x := E)).mp
        (by simpa using hx)
  have hmax : max (Int.log 2 |x|) emin < E := max_lt hlog hmin
  refine ⟨(E - 1 - max (Int.log 2 |x|) emin).toNat, ?_⟩
  unfold ulp
  have hk : ((E - 1 - max (Int.log 2 |x|) emin).toNat : ℤ) = E - 1 - max (Int.log 2 |x|) emin :=
    Int.toNat_of_nonneg (by omega)
  rw [Nat.cast_pow, Nat.cast_ofNat, ← zpow_natCast, hk, ← zpow_add₀ (by norm_num : (2 : ℚ) ≠ 0)]
  congr 1
  ring

/-- A multiple of `2 ^ (E - p)` is a multiple of the spacing around any `x` below `2 ^ E`. -/
theorem mul_ulp_of_mul_zpow {p : ℕ} {emin E : ℤ} {x : ℚ} (hx : |x| < 2 ^ E) (hE : 0 < E)
    (hmin : emin < E) (m : ℤ) :
    ∃ n : ℤ, (m : ℚ) * 2 ^ (E - p) = n * ulp p emin x := by
  obtain ⟨k, hk⟩ := ulp_dvd (p := p) hx hE hmin
  refine ⟨m * (2 ^ k : ℕ), ?_⟩
  rw [hk]
  push_cast
  ring

theorem roundCore_le {p : ℕ} {emin : ℤ} {x : ℚ} {n : ℤ} (h : x ≤ n * ulp p emin x) :
    roundCore p emin x ≤ n * ulp p emin x := by
  unfold roundCore
  have hu := ulp_pos p emin x
  have : roundHalfEven (x / ulp p emin x) ≤ n :=
    roundHalfEven_le ((div_le_iff₀ hu).mpr h)
  have : (roundHalfEven (x / ulp p emin x) : ℚ) ≤ n := by exact_mod_cast this
  exact mul_le_mul_of_nonneg_right this hu.le

theorem le_roundCore {p : ℕ} {emin : ℤ} {x : ℚ} {n : ℤ} (h : (n : ℚ) * ulp p emin x ≤ x) :
    (n : ℚ) * ulp p emin x ≤ roundCore p emin x := by
  unfold roundCore
  have hu := ulp_pos p emin x
  have : n ≤ roundHalfEven (x / ulp p emin x) :=
    le_roundHalfEven ((le_div_iff₀ hu).mpr h)
  have : (n : ℚ) ≤ roundHalfEven (x / ulp p emin x) := by exact_mod_cast this
  exact mul_le_mul_of_nonneg_right this hu.le

/-- The nearest integer is at most one half away. -/
theorem abs_roundHalfEven_sub (x : ℚ) : |(roundHalfEven x : ℚ) - x| ≤ 1 / 2 := by
  have hf : (⌊x⌋ : ℚ) ≤ x := Int.floor_le x
  have hf2 : x < ⌊x⌋ + 1 := Int.lt_floor_add_one x
  unfold roundHalfEven
  simp only
  rw [abs_le]
  split_ifs with h1 h2 h3
  · constructor <;> linarith
  · push_cast
    constructor <;> linarith
  · constructor <;> linarith
  · push_cast
    constructor <;> linarith

/-- Rounding moves a value by at most half the spacing around it. -/
theorem abs_roundCore_sub (p : ℕ) (emin : ℤ) (x : ℚ) :
    |roundCore p emin x - x| ≤ ulp p emin x / 2 := by
  have hu := ulp_pos p emin x
  have h := abs_roundHalfEven_sub (x / ulp p emin x)
  have heq : roundCore p emin x - x =
      ((roundHalfEven (x / ulp p emin x) : ℚ) - x / ulp p emin x) * ulp p emin x := by
    unfold roundCore
    field_simp
  rw [heq, abs_mul, abs_of_pos hu]
  calc |(roundHalfEven (x / ulp p emin x) : ℚ) - x / ulp p emin x| * ulp p emin x
      ≤ 1 / 2 * ulp p emin x := mul_le_mul_of_nonneg_right h hu.le
    _ = ulp p emin x / 2 := by ring

/-- Below `2 ^ E` the spacing is at most `2 ^ (E - p)`. -/
theorem ulp_le (p : ℕ) (emin : ℤ) {E : ℤ} {x : ℚ} (hx : |x| < 2 ^ E) (hE : 0 < E)
    (hmin : emin < E) : ulp p emin x ≤ 2 ^ (E - p) := by
  obtain ⟨k, hk⟩ := ulp_dvd (p := p) hx hE hmin
  rw [hk]
  have h1 : (1 : ℚ) ≤ ((2 ^ k : ℕ) : ℚ) := by
    exact_mod_cast Nat.one_le_two_pow
  have hu := ulp_pos p emin x
  nlinarith

/-- Rounding never crosses a value of the format: upper bounds. -/
theorem roundCore_le_of_le (p : ℕ) (emin : ℤ) {E : ℤ} {x : ℚ} (hx : |x| < 2 ^ E) (hE : 0 < E)
    (hmin : emin < E) (m : ℤ) (h : x ≤ m * 2 ^ (E - p)) :
    roundCore p emin x ≤ m * 2 ^ (E - p) := by
  obtain ⟨n, hn⟩ := mul_ulp_of_mul_zpow (p := p) hx hE hmin m
  rw [hn] at h ⊢
  exact roundCore_le h

/-- Rounding never crosses a value of the format: lower bounds. -/
theorem le_roundCore_of_le (p : ℕ) (emin : ℤ) {E : ℤ} {x : ℚ} (hx : |x| < 2 ^ E) (hE : 0 < E)
    (hmin : emin < E) (m : ℤ) (h : (m : ℚ) * 2 ^ (E - p) ≤ x) :
    (m : ℚ) * 2 ^ (E - p) ≤ roundCore p emin x := by
  obtain ⟨n, hn⟩ := mul_ulp_of_mul_zpow (p := p) hx hE hmin m
  rw [hn] at h ⊢
  exact le_roundCore h

/-- Evaluation of `roundCore` at a positive `x` from its binade and the nearest multiple
of the spacing. -/
theorem roundCore_eval (p : ℕ) (emin : ℤ) {x : ℚ} (e n : ℤ) (hlo : 2 ^ e ≤ x)
    (hhi : x < 2 ^ (e + 1)) (hmin : emin ≤ e)
    (hn : roundHalfEven (x / 2 ^ (e - ((p : ℤ) - 1))) = n) :
    roundCore p emin x = n * 2 ^ (e - ((p : ℤ) - 1)) := by
  have hpos : 0 < x := lt_of_lt_of_le (by positivity) hlo
  have habs : |x| = x := abs_of_pos hpos
  have h1 : e ≤ Int.log 2 |x| := by
    rw [habs]
    exact (Int.zpow_le_iff_le_log (R := ℚ) (b := 2) (by norm_num) hpos).mp (by simpa using hlo)
  have h2 : Int.log 2 |x| < e + 1 := by
    rw [habs]
    exact (Int.lt_zpow_iff_log_lt (R := ℚ) (b := 2) (by norm_num) hpos).mp (by simpa using hhi)
  have he : max (Int.log 2 |x|) emin = e := by
    rw [max_eq_left (by omega)]
    omega
  have hu : ulp p emin x = 2 ^ (e - ((p : ℤ) - 1)) := by
    unfold ulp
    rw [he]
  unfold roundCore
  rw [hu, hn]

/-- Evaluation of `roundBinary` at a positive `x`, see `roundCore_eval`. -/
theorem roundBinary_eval (p : ℕ) (emin emax : ℤ) {x : ℚ} (e n : ℤ) (r : ℚ) (hlo : 2 ^ e ≤ x)
    (hhi : x < 2 ^ (e + 1)) (hmin : emin ≤ e)
    (hn : roundHalfEven (x / 2 ^ (e - ((p : ℤ) - 1))) = n)
    (hr : (n : ℚ) * 2 ^ (e - ((p : ℤ) - 1)) = r) (hov : |r| < 2 ^ (emax + 1)) :
    roundBinary p emin emax x = some r := by
  unfold roundBinary
  simp only
  rw [roundCore_eval p emin e n hlo hhi hmin hn, hr, if_pos hov]

/-- In `float`, the product of a score in `[0, 1]` with 100 stays in `[0, 100]` and is
within `2 ^ (-18)` of the exact product. -/
theorem binary32_product_bounds {s : ℚ} (h0 : 0 ≤ s) (h1 : s ≤ 1) :
    ∃ y, binary32 (s * 100) = some y ∧ 0 ≤ y ∧ y ≤ 100 ∧ |y - s * 100| ≤ 1 / 2 ^ 18 := by
  have hx0 : 0 ≤ s * 100 := by linarith
  have hx1 : s * 100 ≤ 100 := by linarith
  have habs : |s * 100| < 2 ^ (7 : ℤ) := by
    rw [abs_of_nonneg hx0]
    norm_num
    linarith
  have hlo := le_roundCore_of_le 24 (-126) habs (by norm_num) (by norm_num) 0
    (by simpa using hx0)
  have hhi := roundCore_le_of_le 24 (-126) habs (by norm_num) (by norm_num)
    (100 * 2 ^ 17) (by norm_num; linarith)
  have hlo' : 0 ≤ roundCore 24 (-126) (s * 100) := by simpa using hlo
  have hhi' : roundCore 24 (-126) (s * 100) ≤ 100 := by
    refine le_trans hhi (le_of_eq ?_)
    norm_num
  have herr : |roundCore 24 (-126) (s * 100) - s * 100| ≤ 1 / 2 ^ 18 := by
    have h1 := abs_roundCore_sub 24 (-126) (s * 100)
    have h2 := ulp_le 24 (-126) habs (by norm_num) (by norm_num)
    have h3 : (2 : ℚ) ^ ((7 : ℤ) - (24 : ℕ)) = 1 / 2 ^ 17 := by norm_num
    rw [h3] at h2
    calc |roundCore 24 (-126) (s * 100) - s * 100| ≤ ulp 24 (-126) (s * 100) / 2 := h1
      _ ≤ 1 / 2 ^ 17 / 2 := by linarith
      _ = 1 / 2 ^ 18 := by norm_num
  refine ⟨roundCore 24 (-126) (s * 100), ?_, hlo', hhi', herr⟩
  unfold binary32 roundBinary
  simp only
  rw [if_pos]
  rw [abs_of_nonneg hlo']
  refine lt_of_le_of_lt hhi' ?_
  norm_num

/-- In `double`, adding 0.5 to a value of `[0, 100]` stays in `[0.5, 100.5]` and is within
`2 ^ (-47)` of the exact sum. -/
theorem binary64_sum_bounds {y : ℚ} (h0 : 0 ≤ y) (h1 : y ≤ 100) :
    ∃ v, binary64 (y + 1 / 2) = some v ∧ 1 / 2 ≤ v ∧ v ≤ 201 / 2 ∧
      |v - (y + 1 / 2)| ≤ 1 / 2 ^ 47 := by
  have habs : |y + 1 / 2| < 2 ^ (7 : ℤ) := by
    rw [abs_of_nonneg (by linarith)]
    norm_num
    linarith
  have hlo := le_roundCore_of_le 53 (-1022) habs (by norm_num) (by norm_num)
    (2 ^ 45) (by norm_num; linarith)
  have hhi := roundCore_le_of_le 53 (-1022) habs (by norm_num) (by norm_num)
    (201 * 2 ^ 45) (by norm_num; linarith)
  have hlo' : 1 / 2 ≤ roundCore 53 (-1022) (y + 1 / 2) := by
    refine le_trans (le_of_eq ?_) hlo
    norm_num
  have hhi' : roundCore 53 (-1022) (y + 1 / 2) ≤ 201 / 2 := by
    refine le_trans hhi (le_of_eq ?_)
    norm_num
  have herr : |roundCore 53 (-1022) (y + 1 / 2) - (y + 1 / 2)| ≤ 1 / 2 ^ 47 := by
    have h1 := abs_roundCore_sub 53 (-1022) (y + 1 / 2)
    have h2 := ulp_le 53 (-1022) habs (by norm_num) (by norm_num)
    have h3 : (2 : ℚ) ^ ((7 : ℤ) - (53 : ℕ)) = 1 / 2 ^ 46 := by norm_num
    rw [h3] at h2
    calc |roundCore 53 (-1022) (y + 1 / 2) - (y + 1 / 2)|
        ≤ ulp 53 (-1022) (y + 1 / 2) / 2 := h1
      _ ≤ 1 / 2 ^ 46 / 2 := by linarith
      _ = 1 / 2 ^ 47 := by norm_num
  refine ⟨roundCore 53 (-1022) (y + 1 / 2), ?_, hlo', hhi', herr⟩
  unfold binary64 roundBinary
  simp only
  rw [if_pos]
  rw [abs_of_nonneg (by linarith)]
  refine lt_of_le_of_lt hhi' ?_
  norm_num

/-- A finite result of `roundBinary` is the rounded value. -/
theorem roundBinary_eq_some {p : ℕ} {emin emax : ℤ} {x y : ℚ}
    (h : roundBinary p emin emax x = some y) : y = roundCore p emin x := by
  unfold roundBinary at h
  simp only at h
  split_ifs at h
  exact (Option.some.inj h).symm

/-- The floating-point value of `s * 100 + 0.5` is never below an integer which the exact
sum reaches. -/
theorem score_value_ge_int {s v : ℚ} (h0 : 0 ≤ s) (h1 : s ≤ 1) (hv : score_value s = some v)
    (n : ℤ) (hn : (n : ℚ) ≤ s * 100 + 1 / 2) : (n : ℚ) ≤ v := by
  obtain ⟨y, hy, hy0, hy1, -⟩ := binary32_product_bounds h0 h1
  unfold score_value at hv
  rw [hy, Option.some_bind] at hv
  have hyr : y = roundCore 24 (-126) (s * 100) := roundBinary_eq_some hy
  have hvr : v = roundCore 53 (-1022) (y + 1 / 2) := roundBinary_eq_some hv
  have habs : |s * 100| < 2 ^ (7 : ℤ) := by
    rw [abs_of_nonneg (by linarith)]
    norm_num
    linarith
  have habs2 : |y + 1 / 2| < 2 ^ (7 : ℤ) := by
    rw [abs_of_nonneg (by linarith)]
    norm_num
    linarith
  have hm1 : (((2 * n - 1) * 2 ^ 16 : ℤ) : ℚ) * 2 ^ ((7 : ℤ) - (24 : ℕ)) = (n : ℚ) - 1 / 2 := by
    norm_num
    ring
  have hm2 : ((n * 2 ^ 46 : ℤ) : ℚ) * 2 ^ ((7 : ℤ) - (53 : ℕ)) = (n : ℚ) := by
    norm_num
    ring
  have hylo : (n : ℚ) - 1 / 2 ≤ y := by
    have h := le_roundCore_of_le 24 (-126) habs (by norm_num) (by norm_num)
      ((2 * n - 1) * 2 ^ 16) (by rw [hm1]; linarith)
    rw [hm1, ← hyr] at h
    exact h
  have h := le_roundCore_of_le 53 (-1022) habs2 (by norm_num) (by norm_num)
    (n * 2 ^ 46) (by rw [hm2]; linarith)
  rw [hm2, ← hvr] at h
  exact h

/-- In `double`, a small integer is the sum of 0.5 and the half-integer below it, exactly. -/
theorem binary64_tie (k : ℕ) (hk : k < 127) :
    binary64 ((k : ℚ) + 1 / 2 + 1 / 2) = some ((k : ℚ) + 1) := by
  have hk' : (k : ℚ) < 127 := by exact_mod_cast hk
  have hk0 : (0 : ℚ) ≤ k := Nat.cast_nonneg k
  have hsum : (k : ℚ) + 1 / 2 + 1 / 2 = k + 1 := by ring
  rw [hsum]
  have habs : |(k : ℚ) + 1| < 2 ^ (7 : ℤ) := by
    rw [abs_of_nonneg (by linarith)]
    norm_num
    linarith
  have hm : (((k + 1) * 2 ^ 46 : ℤ) : ℚ) * 2 ^ ((7 : ℤ) - (53 : ℕ)) = (k : ℚ) + 1 := by
    norm_num
    ring
  have hlo := le_roundCore_of_le 53 (-1022) habs (by norm_num) (by norm_num)
    ((k + 1) * 2 ^ 46) (le_of_eq hm)
  have hhi := roundCore_le_of_le 53 (-1022) habs (by norm_num) (by norm_num)
    ((k + 1) * 2 ^ 46) (le_of_eq hm.symm)
  rw [hm] at hlo hhi
  have heq : roundCore 53 (-1022) ((k : ℚ) + 1) = k + 1 := le_antisymm hhi hlo
  unfold binary64 roundBinary
  simp only
  rw [heq, if_pos]
  rw [abs_of_nonneg (by linarith)]
  norm_num
  linarith

/-- Conversion to `int` of a value of `[0, 2^31)` is its floor. -/
theorem double_to_int_of_nonneg {v : ℚ} (h0 : 0 ≤ v) (h1 : v < 2 ^ 31) :
    double_to_int v = some ⌊v⌋ := by
  unfold double_to_int truncate
  simp only [if_pos h0]
  rw [if_pos]
  constructor
  · have : 0 ≤ ⌊v⌋ := Int.floor_nonneg.mpr h0
    omega
  · rw [Int.floor_lt]
    exact_mod_cast h1

/-- Assembling `score_int` from the three steps of the expression. -/
theorem score_int_steps {s y v : ℚ} {k : ℤ} (h32 : binary32 (s * 100) = some y)
    (h64 : binary64 (y + 1 / 2) = some v) (h0 : (k : ℚ) ≤ v) (h1 : v < k + 1) (hk0 : 0 ≤ k)
    (hk1 : k < 2 ^ 31) : score_int s = some k := by
  have hfl : ⌊v⌋ = k := Int.floor_eq_iff.mpr ⟨h0, h1⟩
  have hv0 : 0 ≤ v := le_trans (by exact_mod_cast hk0) h0
  have hv1 : v < 2 ^ 31 := by
    have : (k : ℚ) + 1 ≤ 2 ^ 31 := by exact_mod_cast hk1
    linarith
  unfold score_int score_value
  rw [h32, Option.some_bind, h64, Option.some_bind, double_to_int_of_nonneg hv0 hv1, hfl]

/-- The `float` nearest to 0.005. -/
theorem binary32_0_005 : binary32 (5 / 1000) = some (5368709 / 1073741824) := by
  unfold binary32
  refine roundBinary_eval 24 (-126) 127 (-8) 10737418 _ ?_ ?_ ?_ ?_ ?_ ?_
  · norm_num
  · norm_num
  · norm_num
  · exact roundHalfEven_of_near (by rw [abs_lt]; norm_num)
  · norm_num
  · rw [abs_lt]; norm_num

/-- The percentage computed for the `float` nearest to 0.005. -/
theorem score_int_0_005 : score_int (5368709 / 1073741824) = some 1 := by
  have h32 : binary32 ((5368709 / 1073741824 : ℚ) * 100) = some (1 / 2) := by
    unfold binary32
    refine roundBinary_eval 24 (-126) 127 (-2) 16777216 _ ?_ ?_ ?_ ?_ ?_ ?_
    · norm_num
    · norm_num
    · norm_num
    · exact roundHalfEven_of_near (by rw [abs_lt]; norm_num)
    · norm_num
    · rw [abs_lt]; norm_num
  have h64 : binary64 ((1 / 2 : ℚ) + 1 / 2) = some (1) := by
    unfold binary64
    refine roundBinary_eval 53 (-1022) 1023 0 4503599627370496 _ ?_ ?_ ?_ ?_ ?_ ?_
    · norm_num
    · norm_num
    · norm_num
    · exact roundHalfEven_of_near (by rw [abs_lt]; norm_num)
    · norm_num
    · rw [abs_lt]; norm_num
  exact score_int_steps h32 h64 (by norm_num) (by norm_num) (by norm_num) (by norm_num)

/-- The `float` nearest to 0.0049. -/
theorem binary32_0_0049 : binary32 (49 / 10000) = some (5261335 / 1073741824) := by
  unfold binary32
  refine roundBinary_eval 24 (-126) 127 (-8) 10522670 _ ?_ ?_ ?_ ?_ ?_ ?_
  · norm_num
  · norm_num
  · norm_num
  · exact roundHalfEven_of_near (by rw [abs_lt]; norm_num)
  · norm_num
  · rw [abs_lt]; norm_num

/-- The percentage computed for the `float` nearest to 0.0049. -/
theorem score_int_0_0049 : score_int (5261335 / 1073741824) = some 0 := by
  have h32 : binary32 ((5261335 / 1073741824 : ℚ) * 100) = some (2055209 / 4194304) := by
    unfold binary32
    refine roundBinary_eval 24 (-126) 127 (-2) 16441672 _ ?_ ?_ ?_ ?_ ?_ ?_
    · norm_num
    · norm_num
    · norm_num
    · exact roundHalfEven_of_near (by rw [abs_lt]; norm_num)
    · norm_num
    · rw [abs_lt]; norm_num
  have h64 : binary64 ((2055209 / 4194304 : ℚ) + 1 / 2) = some (4152361 / 4194304) := by
    unfold binary64
    refine roundBinary_eval 53 (-1022) 1023 (-1) 8917127348092928 _ ?_ ?_ ?_ ?_ ?_ ?_
    · norm_num
    · norm_num
    · norm_num
    · exact roundHalfEven_of_near (by rw [abs_lt]; norm_num)
    · norm_num
    · rw [abs_lt]; norm_num
  exact score_int_steps h32 h64 (by norm_num) (by norm_num) (by norm_num) (by norm_num)

/-- The `float` nearest to 0.872. -/
theorem binary32_0_872 : binary32 (872 / 1000) = some (3657433 / 4194304) := by
  unfold binary32
  refine roundBinary_eval 24 (-126) 127 (-1) 14629732 _ ?_ ?_ ?_ ?_ ?_ ?_
  · norm_num
  · norm_num
  · norm_num
  · exact roundHalfEven_of_near (by rw [abs_lt]; norm_num)
  · norm_num
  · rw [abs_lt]; norm_num

/-- The percentage computed for the `float` nearest to 0.872. -/
theorem score_int_0_872 : score_int (3657433 / 4194304) = some 87 := by
  have h32 : binary32 ((3657433 / 4194304 : ℚ) * 100) = some (5714739 / 65536) := by
    unfold binary32
    refine roundBinary_eval 24 (-126) 127 6 11429478 _ ?_ ?_ ?_ ?_ ?_ ?_
    · norm_num
    · norm_num
    · norm_num
    · exact roundHalfEven_of_near (by rw [abs_lt]; norm_num)
    · norm_num
    · rw [abs_lt]; norm_num
  have h64 : binary64 ((5714739 / 65536 : ℚ) + 1 / 2) = some (5747507 / 65536) := by
    unfold binary64
    refine roundBinary_eval 53 (-1022) 1023 6 6171338649632768 _ ?_ ?_ ?_ ?_ ?_ ?_
    · norm_num
    · norm_num
    · norm_num
    · exact roundHalfEven_of_near (by rw [abs_lt]; norm_num)
    · norm_num
    · rw [abs_lt]; norm_num
  exact score_int_steps h32 h64 (by norm_num) (by norm_num) (by norm_num) (by norm_num)

/-- The `float` nearest to 0.031. -/
theorem binary32_0_031 : binary32 (31 / 1000) = some (8321499 / 268435456) := by
  unfold binary32
  refine roundBinary_eval 24 (-126) 127 (-6) 16642998 _ ?_ ?_ ?_ ?_ ?_ ?_
  · norm_num
  · norm_num
  · norm_num
  · exact roundHalfEven_of_near (by rw [abs_lt]; norm_num)
  · norm_num
  · rw [abs_lt]; norm_num

/-- The percentage computed for the `float` nearest to 0.031. -/
theorem score_int_0_031 : score_int (8321499 / 268435456) = some 3 := by
  have h32 : binary32 ((8321499 / 268435456 : ℚ) * 100) = some (6501171 / 2097152) := by
    unfold binary32
    refine roundBinary_eval 24 (-126) 127 1 13002342 _ ?_ ?_ ?_ ?_ ?_ ?_
    · norm_num
    · norm_num
    · norm_num
    · exact roundHalfEven_of_near (by rw [abs_lt]; norm_num)
    · norm_num
    · rw [abs_lt]; norm_num
  have h64 : binary64 ((6501171 / 2097152 : ℚ) + 1 / 2) = some (7549747 / 2097152) := by
    unfold binary64
    refine roundBinary_eval 53 (-1022) 1023 1 8106479114518528 _ ?_ ?_ ?_ ?_ ?_ ?_
    · norm_num
    · norm_num
    · norm_num
    · exact roundHalfEven_of_near (by rw [abs_lt]; norm_num)
    · norm_num
    · rw [abs_lt]; norm_num
  exact score_int_steps h32 h64 (by norm_num) (by norm_num) (by norm_num) (by norm_num)

/-- The `float` nearest to 0.097. -/
theorem binary32_0_097 : binary32 (97 / 1000) = some (813695 / 8388608) := by
  unfold binary32
  refine roundBinary_eval 24 (-126) 127 (-4) 13019120 _ ?_ ?_ ?_ ?_ ?_ ?_
  · norm_num
  · norm_num
  · norm_num
  · exact roundHalfEven_of_near (by rw [abs_lt]; norm_num)
  · norm_num
  · rw [abs_lt]; norm_num

/-- The percentage computed for the `float` nearest to 0.097. -/
theorem score_int_0_097 : score_int (813695 / 8388608) = some 10 := by
  have h32 : binary32 ((813695 / 8388608 : ℚ) * 100) = some (2542797 / 262144) := by
    unfold binary32
    refine roundBinary_eval 24 (-126) 127 3 10171188 _ ?_ ?_ ?_ ?_ ?_ ?_
    · norm_num
    · norm_num
    · norm_num
    · exact roundHalfEven_of_tie (by norm_num [abs_of_nonneg, abs_of_nonpos]) (by norm_num)
    · norm_num
    · rw [abs_lt]; norm_num
  have h64 : binary64 ((2542797 / 262144 : ℚ) + 1 / 2) = some (2673869 / 262144) := by
    unfold binary64
    refine roundBinary_eval 53 (-1022) 1023 3 5742089954394112 _ ?_ ?_ ?_ ?_ ?_ ?_
    · norm_num
    · norm_num
    · norm_num
    · exact roundHalfEven_of_near (by rw [abs_lt]; norm_num)
    · norm_num
    · rw [abs_lt]; norm_num
  exact score_int_steps h32 h64 (by norm_num) (by norm_num) (by norm_num) (by norm_num)

/-- The `float` nearest to 0.125. -/
theorem binary32_0_125 : binary32 (125 / 1000) = some (1 / 8) := by
  unfold binary32
  refine roundBinary_eval 24 (-126) 127 (-3) 8388608 _ ?_ ?_ ?_ ?_ ?_ ?_
  · norm_num
  · norm_num
  · norm_num
  · exact roundHalfEven_of_near (by rw [abs_lt]; norm_num)
  · norm_num
  · rw [abs_lt]; norm_num

/-- The percentage computed for the `float` nearest to 0.125. -/
theorem score_int_0_125 : score_int (1 / 8) = some 13 := by
  have h32 : binary32 ((1 / 8 : ℚ) * 100) = some (25 / 2) := by
    unfold binary32
    refine roundBinary_eval 24 (-126) 127 3 13107200 _ ?_ ?_ ?_ ?_ ?_ ?_
    · norm_num
    · norm_num
    · norm_num
    · exact roundHalfEven_of_near (by rw [abs_lt]; norm_num)
    · norm_num
    · rw [abs_lt]; norm_num
  have h64 : binary64 ((25 / 2 : ℚ) + 1 / 2) = some (13) := by
    unfold binary64
    refine roundBinary_eval 53 (-1022) 1023 3 7318349394477056 _ ?_ ?_ ?_ ?_ ?_ ?_
    · norm_num
    · norm_num
    · norm_num
    · exact roundHalfEven_of_near (by rw [abs_lt]; norm_num)
    · norm_num
    · rw [abs_lt]; norm_num
  exact score_int_steps h32 h64 (by norm_num) (by norm_num) (by norm_num) (by norm_num)

/-! ## Responder -/

theorem create_gui_runs_append (a b : List Event) :
    create_gui_runs (a ++ b) = create_gui_runs a + create_gui_runs b := by
  induction a with
  | nil => simp [create_gui_runs]
  | cons e es ih =>
    cases e <;> simp [create_gui_runs, ih]
    omega

/-- With the canvas in place, a call neither runs `create_gui` nor changes the statics. -/
theorem respond_with_canvas (cfg : Config) (c l u : ℚ) (env : DisplayEnv) (st : DisplayState)
    (h : st.camera_canvas = .valid) :
    (RespondToDetection cfg c l u env st).ctl = .returned ∧
    (RespondToDetection cfg c l u env st).st = st ∧
    create_gui_runs (RespondToDetection cfg c l u env st).trace = 0 := by
  obtain ⟨cc, si, lb, cb⟩ := st
  obtain ⟨fb, fa, ca, co, lo, la, db⟩ := env
  simp only at h
  subst h
  cases cb <;> cases db <;> simp [RespondToDetection, respond_update, create_gui_runs]

/-- Without canvas and buffer, a failed allocation runs `create_gui` once and leaves the
statics as they were. -/
theorem respond_alloc_failed (cfg : Config) (c l u : ℚ) (env : DisplayEnv) (st : DisplayState)
    (h1 : st.camera_canvas = .null) (h2 : st.canvas_buf = .null)
    (h3 : env.canvas_alloc = .null) :
    (RespondToDetection cfg c l u env st).ctl = .returned ∧
    (RespondToDetection cfg c l u env st).st = st ∧
    create_gui_runs (RespondToDetection cfg c l u env st).trace = 1 := by
  obtain ⟨cc, si, lb, cb⟩ := st
  obtain ⟨fb, fa, ca, co, lo, la, db⟩ := env
  simp only at h1 h2 h3
  subst h1 h2 h3
  simp [RespondToDetection, create_gui, check_memory_usage, create_gui_runs]

/-- Without canvas, a successful allocation runs `create_gui` once, and the call ends with
the canvas in place unless it does not return. -/
theorem respond_alloc_ok (cfg : Config) (c l u : ℚ) (env : DisplayEnv) (st : DisplayState)
    (h1 : st.camera_canvas = .null) (h3 : env.canvas_alloc = .valid) :
    create_gui_runs (RespondToDetection cfg c l u env st).trace = 1 ∧
    ((RespondToDetection cfg c l u env st).ctl = .returned →
      (RespondToDetection cfg c l u env st).st.camera_canvas = .valid) := by
  obtain ⟨cc, si, lb, cb⟩ := st
  obtain ⟨fb, fa, ca, co, lo, la, db⟩ := env
  simp only at h1 h3
  subst h1 h3
  cases cb <;> cases co <;> cases lo <;> cases la <;> cases db <;>
    simp [RespondToDetection, create_gui, create_gui_objects, respond_update,
      check_memory_usage, create_gui_runs]

/-- Once the canvas exists no later call runs `create_gui`. -/
theorem respond_calls_with_canvas (cfg : Config) (calls : List Call) (st : DisplayState)
    (h : st.camera_canvas = .valid) :
    create_gui_runs (respond_calls cfg calls st).trace = 0 := by
  induction calls generalizing st with
  | nil => simp [respond_calls, create_gui_runs]
  | cons c cs ih =>
    obtain ⟨hc, hs, hr⟩ := respond_with_canvas cfg c.cup_score c.laptop_score c.unknown_score
      c.env st h
    simp only [respond_calls, hc, create_gui_runs_append, hr, hs]
    simpa using ih st h

theorem respond_calls_runs (cfg : Config) (calls : List Call) (st : DisplayState)
    (h1 : st.camera_canvas = .null) (h2 : st.canvas_buf = .null) :
    create_gui_runs (respond_calls cfg calls st).trace =
      min (failed_allocs calls + 1) calls.length := by
  induction calls generalizing st with
  | nil => simp [respond_calls, create_gui_runs]
  | cons c cs ih =>
    cases hca : c.env.canvas_alloc with
    | null =>
      obtain ⟨hc, hs, hr⟩ := respond_alloc_failed cfg c.cup_score c.laptop_score
        c.unknown_score c.env st h1 h2 hca
      have hf : failed_allocs (c :: cs) = failed_allocs cs + 1 := by
        simp [failed_allocs, List.takeWhile, hca]
      simp only [respond_calls, hc, create_gui_runs_append, hr, hs, hf, List.length_cons]
      rw [ih st h1 h2]
      omega
    | valid =>
      obtain ⟨hr, hv⟩ := respond_alloc_ok cfg c.cup_score c.laptop_score
        c.unknown_score c.env st h1 hca
      have hf : failed_allocs (c :: cs) = 0 := by
        simp [failed_allocs, List.takeWhile, hca]
      rw [hf]
      simp only [List.length_cons]
      have hmin : min (0 + 1) (cs.length + 1) = 1 := by omega
      rw [hmin]
      unfold respond_calls
      simp only
      split
      · rename_i hctl
        simp only [create_gui_runs_append, hr]
        rw [respond_calls_with_canvas cfg cs _ (hv hctl)]
      · exact hr

/-- The log of a call is empty or holds the one line with the three percentages. -/
theorem respond_log_shape (cfg : Config) (c l u : ℚ) (env : DisplayEnv) (st : DisplayState) :
    micro_events (RespondToDetection cfg c l u env st).trace = [] ∨
    log_lines (RespondToDetection cfg c l u env st).trace =
      log_lines [.MicroPrintf "cup score:%d%%, laptop score:%d%%, unknown score:%d%%"
        [score_int c, score_int l, score_int u]] := by
  obtain ⟨cc, si, lb, cb⟩ := st
  obtain ⟨fb, fa, ca, co, lo, la, db⟩ := env
  cases cc <;> cases cb <;> cases ca <;> cases co <;> cases lo <;> cases la <;> cases db <;>
    simp [RespondToDetection, create_gui, create_gui_objects, respond_update,
      check_memory_usage, micro_events, log_lines, Event.line]

/-- Lock discipline of `create_gui`: the checker accepts the trace, and the lock is held at
the end exactly when an `assert` aborted. -/
theorem create_gui_lock_check (cfg : Config) (env : DisplayEnv) (st : DisplayState) :
    lock_check false (create_gui cfg env st).trace =
      some (decide ((create_gui cfg env st).ctl = .aborted)) := by
  obtain ⟨cc, si, lb, cb⟩ := st
  obtain ⟨fb, fa, ca, co, lo, la, db⟩ := env
  cases cb <;> cases ca <;> cases co <;> cases lo <;> cases la <;> rfl

/-- Lock discipline of `RespondToDetection`, see `create_gui_lock_check`. -/
theorem respond_lock_check (cfg : Config) (c l u : ℚ) (env : DisplayEnv) (st : DisplayState) :
    lock_check false (RespondToDetection cfg c l u env st).trace =
      some (decide ((RespondToDetection cfg c l u env st).ctl = .aborted)) := by
  obtain ⟨cc, si, lb, cb⟩ := st
  obtain ⟨fb, fa, ca, co, lo, la, db⟩ := env
  cases cc <;> cases cb <;> cases ca <;> cases co <;> cases lo <;> cases la <;> cases db <;> rfl

theorem invocations_append (a b : List Event) :
    invocations (a ++ b) = invocations a + invocations b := by
  induction a with
  | nil => simp [invocations]
  | cons e es ih =>
    cases e <;> simp [invocations, ih]
    omega

theorem constructions_append (a b : List Event) :
    constructions (a ++ b) = constructions a + constructions b := by
  induction a with
  | nil => simp [constructions]
  | cons e es ih =>
    cases e <;> simp [constructions, ih]
    omega

theorem responses_append (a b : List Event) :
    responses (a ++ b) = responses a + responses b := by
  induction a with
  | nil => simp [responses]
  | cons e es ih =>
    cases e <;> simp [responses, ih]
    omega

/-- The responder itself neither invokes the interpreter nor calls itself. -/
theorem respond_trace_counts (cfg : Config) (c l u : ℚ) (env : DisplayEnv) (st : DisplayState) :
    invocations (RespondToDetection cfg c l u env st).trace = 0 ∧
    responses (RespondToDetection cfg c l u env st).trace = 0 := by
  obtain ⟨cc, si, lb, cb⟩ := st
  obtain ⟨fb, fa, ca, co, lo, la, db⟩ := env
  cases cc <;> cases cb <;> cases ca <;> cases co <;> cases lo <;> cases la <;> cases db <;>
    exact ⟨rfl, rfl⟩

/-- The responder never ends in a null-pointer fault. -/
theorem respond_ctl_ne_fault (cfg : Config) (c l u : ℚ) (env : DisplayEnv) (st : DisplayState) :
    (RespondToDetection cfg c l u env st).ctl ≠ .fault := by
  obtain ⟨cc, si, lb, cb⟩ := st
  obtain ⟨fb, fa, ca, co, lo, la, db⟩ := env
  cases cc <;> cases cb <;> cases ca <;> cases co <;> cases lo <;> cases la <;> cases db <;>
    simp [RespondToDetection, create_gui, create_gui_objects, respond_update]

/-- With null `input` and `interpreter`, a cycle faults before any invocation. -/
theorem cycle_faults_when_uninit (cfg : Config) (c : Cycle) (st : MainState)
    (hin : st.input = .null) (hi : st.interpreter = .null) :
    (c.run cfg st).ctl = .fault ∧ invocations (c.run cfg st).trace = 0 ∧
    constructions (c.run cfg st).trace = 0 := by
  cases c with
  | loop env => simp [Cycle.run, loop, hin, invocations, constructions]
  | run_inference ptr env =>
    unfold Cycle.run run_inference
    by_cases hn : 0 < cfg.kNumCols * cfg.kNumRows
    · simp [hn, hin, invocations, constructions]
    · simp only [hn, false_and, if_false, hi, if_true]
      cases cfg.collect_cpu_stats <;> simp [invocations, constructions]

theorem run_cycles_when_uninit (cfg : Config) (cycles : List Cycle) (st : MainState)
    (hin : st.input = .null) (hi : st.interpreter = .null) :
    invocations (run_cycles cfg cycles st).trace = 0 ∧
    constructions (run_cycles cfg cycles st).trace = 0 ∧
    (cycles ≠ [] → (run_cycles cfg cycles st).ctl = .fault) := by
  cases cycles with
  | nil => simp [run_cycles, invocations, constructions]
  | cons c cs =>
    obtain ⟨h1, h2, h3⟩ := cycle_faults_when_uninit cfg c st hin hi
    have hr : run_cycles cfg (c :: cs) st = c.run cfg st := by
      simp [run_cycles, h1]
    rw [hr]
    exact ⟨h2, h3, fun _ => h1⟩

/-! ## Claims -/

/-- C1 as stated fails: the `float` nearest to 0.005 is a score in `[0, 1]` whose exact sum
`s * 100 + 0.5` lies just below 1 and has floor 0, while its product with 100 rounds to
0.5 in `float` and the stored percentage is 1. -/
theorem score_int_above_exact_floor :
    binary32 (5368709 / 1073741824) = some (5368709 / 1073741824) ∧
    (0 : ℚ) ≤ 5368709 / 1073741824 ∧ (5368709 / 1073741824 : ℚ) ≤ 1 ∧
    score_int (5368709 / 1073741824) = some 1 ∧
    ⌊(5368709 / 1073741824 : ℚ) * 100 + 1 / 2⌋ = 0 ∧
    score_int (5368709 / 1073741824) ≠ some ⌊(5368709 / 1073741824 : ℚ) * 100 + 1 / 2⌋ := by
  have hfl : ⌊(5368709 / 1073741824 : ℚ) * 100 + 1 / 2⌋ = 0 := by
    rw [Int.floor_eq_iff]
    norm_num
  refine ⟨?_, by norm_num, by norm_num, score_int_0_005, hfl, ?_⟩
  · unfold binary32
    refine roundBinary_eval 24 (-126) 127 (-8) 10737418 _ ?_ ?_ ?_ ?_ ?_ ?_
    · norm_num
    · norm_num
    · norm_num
    · exact roundHalfEven_of_near (by rw [abs_lt]; norm_num)
    · norm_num
    · rw [abs_lt]; norm_num
  · rw [hfl, score_int_0_005]
    decide

/-- C1, amended: for every score `s` with `0 ≤ s ≤ 1` the expression `s * 100 + 0.5` has a
finite floating-point value `v`, within `2 ^ (-17)` of the exact sum, and the integer
percentage stored by `RespondToDetection` is the floor of `v`, a number between 0 and 100.
It is never below the floor of the exact sum and at most one above it, and equals it unless
the exact sum lies within `2 ^ (-17)` below the next integer.  A product that lies exactly
half-way, `k + 0.5`, gives `k + 1`; the `float` nearest to 0.005 gives 1 and the `float`
nearest to 0.0049 gives 0. -/
theorem score_int_floor (s : ℚ) (h0 : 0 ≤ s) (h1 : s ≤ 1) :
    (∃ v, score_value s = some v ∧ |v - (s * 100 + 1 / 2)| ≤ 1 / 2 ^ 17 ∧
      score_int s = some ⌊v⌋ ∧ 0 ≤ ⌊v⌋ ∧ ⌊v⌋ ≤ 100 ∧
      ⌊s * 100 + 1 / 2⌋ ≤ ⌊v⌋ ∧ ⌊v⌋ ≤ ⌊s * 100 + 1 / 2⌋ + 1 ∧
      (s * 100 + 1 / 2 < ⌊s * 100 + 1 / 2⌋ + 1 - 1 / 2 ^ 17 → ⌊v⌋ = ⌊s * 100 + 1 / 2⌋)) ∧
    (∀ k : ℕ, binary32 (s * 100) = some ((k : ℚ) + 1 / 2) → score_int s = some ((k : ℤ) + 1)) ∧
    (binary32 (5 / 1000)).bind score_int = some 1 ∧
    (binary32 (49 / 10000)).bind score_int = some 0 := by
  obtain ⟨y, hy, hy0, hy1, hye⟩ := binary32_product_bounds h0 h1
  obtain ⟨v, hv, hv0, hv1, hve⟩ := binary64_sum_bounds hy0 hy1
  have hval : score_value s = some v := by
    unfold score_value
    rw [hy, Option.some_bind, hv]
  have herr : |v - (s * 100 + 1 / 2)| ≤ 1 / 2 ^ 17 := by
    have hsplit : v - (s * 100 + 1 / 2) = (v - (y + 1 / 2)) + (y - s * 100) := by ring
    rw [hsplit]
    refine le_trans (abs_add _ _) ?_
    have : (1 : ℚ) / 2 ^ 47 + 1 / 2 ^ 18 ≤ 1 / 2 ^ 17 := by norm_num
    linarith
  have hup : v ≤ s * 100 + 1 / 2 + 1 / 2 ^ 17 := by
    have := (abs_le.mp herr).2
    linarith
  have hxf : s * 100 + 1 / 2 < ⌊s * 100 + 1 / 2⌋ + 1 := Int.lt_floor_add_one _
  have hge : ⌊s * 100 + 1 / 2⌋ ≤ ⌊v⌋ :=
    Int.le_floor.mpr (score_value_ge_int h0 h1 hval _ (Int.floor_le _))
  refine ⟨⟨v, hval, herr, ?_, ?_, ?_, hge, ?_, ?_⟩, ?_, ?_, ?_⟩
  · unfold score_int
    rw [hval, Option.some_bind]
    exact double_to_int_of_nonneg (by linarith) (by linarith)
  · exact Int.floor_nonneg.mpr (by linarith)
  · have : ⌊v⌋ < 101 := by
      rw [Int.floor_lt]
      push_cast
      linarith
    omega
  · have : ⌊v⌋ < ⌊s * 100 + 1 / 2⌋ + 2 := by
      rw [Int.floor_lt]
      push_cast
      have : (1 : ℚ) / 2 ^ 17 ≤ 1 := by norm_num
      linarith
    omega
  · intro hfar
    have : ⌊v⌋ < ⌊s * 100 + 1 / 2⌋ + 1 := by
      rw [Int.floor_lt]
      push_cast
      linarith
    omega
  · intro k hk
    rw [hy] at hk
    obtain rfl := Option.some.inj hk
    have hk99 : k < 127 := by
      have : (k : ℚ) < 127 := by linarith
      exact_mod_cast this
    have hk0 : (0 : ℚ) ≤ k := Nat.cast_nonneg k
    have h64 := binary64_tie k hk99
    refine score_int_steps hy h64 (by push_cast; exact le_refl _) (by push_cast; linarith)
      (by omega) ?_
    have : (k : ℤ) < 127 := by exact_mod_cast hk99
    omega
  · rw [binary32_0_005, Option.some_bind, score_int_0_005]
  · rw [binary32_0_0049, Option.some_bind, score_int_0_0049]

/-- The percentage of the score 0.5 is the floor of its floating-point value. -/
theorem score_int_floor_witness :
    ∃ v, score_value (1 / 2) = some v ∧ |v - ((1 / 2 : ℚ) * 100 + 1 / 2)| ≤ 1 / 2 ^ 17 ∧
      score_int (1 / 2) = some ⌊v⌋ ∧ 0 ≤ ⌊v⌋ ∧ ⌊v⌋ ≤ 100 ∧
      ⌊(1 / 2 : ℚ) * 100 + 1 / 2⌋ ≤ ⌊v⌋ ∧ ⌊v⌋ ≤ ⌊(1 / 2 : ℚ) * 100 + 1 / 2⌋ + 1 ∧
      ((1 / 2 : ℚ) * 100 + 1 / 2 < ⌊(1 / 2 : ℚ) * 100 + 1 / 2⌋ + 1 - 1 / 2 ^ 17 →
        ⌊v⌋ = ⌊(1 / 2 : ℚ) * 100 + 1 / 2⌋) :=
  (score_int_floor (1 / 2) (by norm_num) (by norm_num)).1

/-- C2: called with the `float` values nearest to 0.872, 0.031 and 0.097, a call of
`RespondToDetection` that reaches its `MicroPrintf` statement writes exactly one log line,
"cup score:87%, laptop score:3%, unknown score:10%". -/
theorem respond_example_log_line (cfg : Config) (env : DisplayEnv) (st : DisplayState)
    (cup laptop unknown : ℚ)
    (hc : binary32 (872 / 1000) = some cup) (hl : binary32 (31 / 1000) = some laptop)
    (hu : binary32 (97 / 1000) = some unknown)
    (hlog : micro_events (RespondToDetection cfg cup laptop unknown env st).trace ≠ []) :
    log_lines (RespondToDetection cfg cup laptop unknown env st).trace =
      ["cup score:87%, laptop score:3%, unknown score:10%"] := by
  rw [binary32_0_872] at hc
  rw [binary32_0_031] at hl
  rw [binary32_0_097] at hu
  obtain rfl := Option.some.inj hc
  obtain rfl := Option.some.inj hl
  obtain rfl := Option.some.inj hu
  rcases respond_log_shape cfg _ _ _ env st with h | h
  · exact absurd h hlog
  · rw [h, score_int_0_872, score_int_0_031, score_int_0_097]
    decide

/-- The example scores on a first call in which every library call succeeds. -/
theorem respond_example_log_line_witness :
    log_lines (RespondToDetection example_config (3657433 / 4194304) (8321499 / 268435456)
      (813695 / 8388608) env_ok DisplayState.init).trace =
      ["cup score:87%, laptop score:3%, unknown score:10%"] :=
  respond_example_log_line example_config env_ok DisplayState.init _ _ _
    binary32_0_872 binary32_0_031 binary32_0_097 (by decide)

/-- C5 as stated fails: with the canvas buffer allocation failing, the call writes no
`MicroPrintf` line at all, so the three percentages are not reported. -/
theorem respond_alloc_failure_no_score_line :
    micro_events (RespondToDetection example_config (3657433 / 4194304) (8321499 / 268435456)
      (813695 / 8388608) env_alloc_fails DisplayState.init).trace = [] ∧
    log_lines (RespondToDetection example_config (3657433 / 4194304) (8321499 / 268435456)
      (813695 / 8388608) env_alloc_fails DisplayState.init).trace = [] := by
  constructor <;> rfl

/-- C5, amended: when the canvas buffer allocation fails inside `create_gui`, the call of
`RespondToDetection` prints "Failed to allocate SPI memory for canvas buffer" and
"Failed to create GUI", performs no canvas copy or redraw, leaves the statics unchanged and
returns without writing the log line with the percentages. -/
theorem respond_alloc_failure_trace (cfg : Config) (c l u : ℚ) (env : DisplayEnv)
    (st : DisplayState) (h1 : st.camera_canvas = .null) (h2 : st.canvas_buf = .null)
    (h3 : env.canvas_alloc = .null) :
    (RespondToDetection cfg c l u env st).ctl = .returned ∧
    (RespondToDetection cfg c l u env st).st = st ∧
    (RespondToDetection cfg c l u env st).trace =
      [.create_gui, .bsp_display_start_with_config, .bsp_display_backlight_on,
       .bsp_display_lock 0, .heap_caps_get_free_size, .heap_caps_get_free_size,
       .printf "Free heap size: %zu bytes\n" [env.free_before.1],
       .printf "Free SPI heap size: %zu bytes\n" [env.free_before.2],
       .heap_caps_malloc (IMG_WD * IMG_HT * cfg.sizeof_lv_color_t),
       .printf "Failed to allocate SPI memory for canvas buffer\n" [],
       .bsp_display_unlock,
       .printf "Failed to create GUI\n" []] ∧
    log_lines (RespondToDetection cfg c l u env st).trace = [] := by
  obtain ⟨cc, si, lb, cb⟩ := st
  obtain ⟨fb, fa, ca, co, lo, la, db⟩ := env
  simp only at h1 h2 h3
  subst h1 h2 h3
  simp [RespondToDetection, create_gui, check_memory_usage, log_lines, Event.line]

/-- A first call whose canvas buffer allocation fails returns with an empty log. -/
theorem respond_alloc_failure_trace_witness :
    (RespondToDetection example_config (1 / 2) (1 / 4) (1 / 4) env_alloc_fails
      DisplayState.init).ctl = .returned ∧
    log_lines (RespondToDetection example_config (1 / 2) (1 / 4) (1 / 4) env_alloc_fails
      DisplayState.init).trace = [] :=
  have h := respond_alloc_failure_trace example_config (1 / 2) (1 / 4) (1 / 4) env_alloc_fails
    DisplayState.init rfl rfl rfl
  ⟨h.1, h.2.2.2⟩

/-- C6 as stated fails: when the allocation fails in the first call, the second call runs
`create_gui` again, two executions in two calls. -/
theorem create_gui_twice_after_alloc_failure :
    create_gui_runs (respond_calls example_config
      [⟨1 / 2, 1 / 4, 1 / 4, env_alloc_fails⟩, ⟨1 / 2, 1 / 4, 1 / 4, env_ok⟩]
      DisplayState.init).trace = 2 := by
  rfl

/-- C6, amended: over any sequence of calls of `RespondToDetection` from program start,
`create_gui` runs in the first call and in each later call as long as the canvas buffer
allocation has failed in every call before it, and never once the canvas exists: the
first call runs it once, with `k` leading calls whose allocation fails it runs
`min (k + 1) n` times in `n` calls, and from a state with the canvas in place no sequence
of calls runs it. -/
theorem create_gui_runs_count (cfg : Config) (calls : List Call) :
    (∀ c : Call, create_gui_runs (RespondToDetection cfg c.cup_score c.laptop_score
      c.unknown_score c.env DisplayState.init).trace = 1) ∧
    create_gui_runs (respond_calls cfg calls DisplayState.init).trace =
      min (failed_allocs calls + 1) calls.length ∧
    (∀ st : DisplayState, st.camera_canvas = .valid →
      create_gui_runs (respond_calls cfg calls st).trace = 0) := by
  refine ⟨fun c => ?_, respond_calls_runs cfg calls DisplayState.init rfl rfl,
    fun st h => respond_calls_with_canvas cfg calls st h⟩
  cases hca : c.env.canvas_alloc with
  | null =>
    exact (respond_alloc_failed cfg c.cup_score c.laptop_score c.unknown_score c.env
      DisplayState.init rfl rfl hca).2.2
  | valid =>
    exact (respond_alloc_ok cfg c.cup_score c.laptop_score c.unknown_score c.env
      DisplayState.init rfl hca).1

/-- Three calls, the allocation failing in the first only: `create_gui` runs twice. -/
theorem create_gui_runs_count_witness :
    create_gui_runs (respond_calls example_config
      [⟨1 / 2, 1 / 4, 1 / 4, env_alloc_fails⟩, ⟨1 / 2, 1 / 4, 1 / 4, env_ok⟩,
       ⟨1 / 2, 1 / 4, 1 / 4, env_ok⟩] DisplayState.init).trace = 2 :=
  (create_gui_runs_count example_config
    [⟨1 / 2, 1 / 4, 1 / 4, env_alloc_fails⟩, ⟨1 / 2, 1 / 4, 1 / 4, env_ok⟩,
     ⟨1 / 2, 1 / 4, 1 / 4, env_ok⟩]).2.1.trans (by decide)

/-- C9: along every path through `create_gui` and through `RespondToDetection`, locks and
unlocks of the display alternate starting with a lock, every display mutation happens with
the lock held, and the lock is free when the function returns. -/
theorem display_lock_discipline (cfg : Config) (c l u : ℚ) (env : DisplayEnv)
    (st : DisplayState) :
    (∃ held, lock_check false (create_gui cfg env st).trace = some held ∧
      ((create_gui cfg env st).ctl = .returned → held = false)) ∧
    (∃ held, lock_check false (RespondToDetection cfg c l u env st).trace = some held ∧
      ((RespondToDetection cfg c l u env st).ctl = .returned → held = false)) := by
  refine ⟨⟨_, create_gui_lock_check cfg env st, ?_⟩, ⟨_, respond_lock_check cfg c l u env st, ?_⟩⟩
  · intro h
    simp [h]
  · intro h
    simp [h]

/-- C3: when the schema version of the model differs from the supported one, `setup` logs
the mismatch and returns at once: it makes no allocation call, constructs no interpreter and
does not call `AllocateTensors`, and the arena, interpreter and input pointers keep their
values (null at program start). -/
theorem setup_version_mismatch (cfg : Config) (env : SetupEnv) (st : MainState)
    (h : env.model_version ≠ cfg.TFLITE_SCHEMA_VERSION) :
    (setup cfg env st).ctl = .returned ∧
    (setup cfg env st).trace =
      [.GetModel,
       .MicroPrintf "Model provided is schema version %d not equal to supported version %d."
         [some env.model_version, some cfg.TFLITE_SCHEMA_VERSION]] ∧
    (setup cfg env st).st.tensor_arena = st.tensor_arena ∧
    (setup cfg env st).st.interpreter = st.interpreter ∧
    (setup cfg env st).st.input = st.input ∧
    (setup cfg env st).st.static_interpreter = st.static_interpreter ∧
    (∀ d, (setup cfg env (MainState.init d)).st.interpreter = .null ∧
      (setup cfg env (MainState.init d)).st.input = .null ∧
      (setup cfg env (MainState.init d)).st.tensor_arena = .null) := by
  have hs : ∀ st0 : MainState, setup cfg env st0 =
      ⟨.returned, { st0 with model := .valid },
        [.GetModel,
         .MicroPrintf "Model provided is schema version %d not equal to supported version %d."
           [some env.model_version, some cfg.TFLITE_SCHEMA_VERSION]]⟩ := by
    intro st0
    unfold setup
    simp only [if_pos h]
    rfl
  refine ⟨?_, ?_, ?_, ?_, ?_, ?_, fun d => ?_⟩
  · rw [hs]
  · rw [hs]
  · rw [hs]
  · rw [hs]
  · rw [hs]
  · rw [hs]
  · rw [hs]
    exact ⟨rfl, rfl, rfl⟩

/-- A model of schema version 2 against a runtime supporting version 3. -/
theorem setup_version_mismatch_witness :
    (setup example_config setup_env_old_schema (MainState.init fun _ => 0)).trace =
      [.GetModel,
       .MicroPrintf "Model provided is schema version %d not equal to supported version %d."
         [some 2, some 3]] :=
  (setup_version_mismatch example_config setup_env_old_schema (MainState.init fun _ => 0)
    (by decide)).2.1

/-- C4: when the allocation of the tensor arena returns null, `setup` prints the failure and
returns with no interpreter constructed and `interpreter` and `input` still null; in every
sequence of later cycles (`loop` or `run_inference`) no `Invoke` call and no interpreter
construction happens, the first cycle ending in a null-pointer fault before it gets there. -/
theorem setup_arena_failure (cfg : Config) (env : SetupEnv) (d : ℕ → ℤ)
    (hv : env.model_version = cfg.TFLITE_SCHEMA_VERSION) (ha : env.arena_alloc = .null) :
    (setup cfg env (MainState.init d)).ctl = .returned ∧
    (setup cfg env (MainState.init d)).trace =
      [.GetModel, .heap_caps_malloc (kTensorArenaSize cfg),
       .printf "Couldn't allocate memory of %d bytes\n" [kTensorArenaSize cfg]] ∧
    (setup cfg env (MainState.init d)).st.interpreter = .null ∧
    (setup cfg env (MainState.init d)).st.input = .null ∧
    (setup cfg env (MainState.init d)).st.static_interpreter = false ∧
    ∀ cycles : List Cycle,
      invocations (run_cycles cfg cycles (setup cfg env (MainState.init d)).st).trace = 0 ∧
      constructions (run_cycles cfg cycles (setup cfg env (MainState.init d)).st).trace = 0 ∧
      (cycles ≠ [] →
        (run_cycles cfg cycles (setup cfg env (MainState.init d)).st).ctl = .fault) := by
  have hs : setup cfg env (MainState.init d) =
      ⟨.returned, { MainState.init d with model := .valid },
        [.GetModel, .heap_caps_malloc (kTensorArenaSize cfg),
         .printf "Couldn't allocate memory of %d bytes\n" [kTensorArenaSize cfg]]⟩ := by
    simp [setup, hv, ha, MainState.init]
  rw [hs]
  refine ⟨rfl, rfl, rfl, rfl, rfl, fun cycles => ?_⟩
  exact run_cycles_when_uninit cfg cycles _ rfl rfl

/-- A failed arena allocation followed by one pass of the camera cycle. -/
theorem setup_arena_failure_witness :
    (setup example_config setup_env_no_arena (MainState.init fun _ => 0)).st.interpreter = .null ∧
    invocations (run_cycles example_config [.loop cycle_capture_fails]
      (setup example_config setup_env_no_arena (MainState.init fun _ => 0)).st).trace = 0 :=
  have h := setup_arena_failure example_config setup_env_no_arena (fun _ => 0) rfl rfl
  ⟨h.2.2.1, (h.2.2.2.2.2 [.loop cycle_capture_fails]).1⟩

/-- C7 as stated fails: in a cycle of `loop` whose capture fails the interpreter is invoked
all the same. -/
theorem loop_invokes_after_capture_failure :
    cycle_capture_fails.capture_ok = false ∧
    invocations (loop example_config cycle_capture_fails ready_state).trace = 1 := by
  constructor <;> rfl

/-- C7, amended: in a cycle of `loop` (after a successful `setup`) whose capture fails,
"Image capture failed." is logged and the interpreter is then invoked, once, before the
response step. -/
theorem loop_capture_failure (cfg : Config) (env : CycleEnv) (st : MainState)
    (hin : st.input = .valid) (hi : st.interpreter = .valid) (hc : env.capture_ok = false) :
    ∃ rest, (loop cfg env st).trace =
        .GetImage cfg.kNumCols cfg.kNumRows cfg.kNumChannels ::
        .MicroPrintf "Image capture failed." [] :: .Invoke :: rest ∧
      invocations rest = 0 ∧ responses rest = 1 := by
  obtain ⟨hri, hrr⟩ := respond_trace_counts cfg env.cup_score_f env.laptop_score_f
    env.unknown_score_f env.display st.display
  unfold loop
  simp only [hin, hi, hc, respond_step, invoke_step]
  cases hio : env.invoke_ok <;>
    cases hctl : (RespondToDetection cfg env.cup_score_f env.laptop_score_f env.unknown_score_f
      env.display st.display).ctl <;>
    simp [invocations, responses, invocations_append, responses_append, hri, hrr]

/-- A cycle with a failed capture on the example build. -/
theorem loop_capture_failure_witness :
    ∃ rest, (loop example_config cycle_capture_fails ready_state).trace =
        .GetImage 96 96 1 :: .MicroPrintf "Image capture failed." [] :: .Invoke :: rest ∧
      invocations rest = 0 ∧ responses rest = 1 :=
  loop_capture_failure example_config cycle_capture_fails ready_state rfl rfl rfl

theorem delays_append (a b : List Event) :
    delays (a ++ b) = delays a + delays b := by
  induction a with
  | nil => simp [delays]
  | cons e es ih =>
    cases e <;> simp [delays, ih]
    omega

theorem assert_failures_append (a b : List Event) :
    assert_failures (a ++ b) = assert_failures a + assert_failures b := by
  induction a with
  | nil => simp [assert_failures]
  | cons e es ih =>
    cases e <;> simp [assert_failures, ih]
    omega

/-- The responder never calls `vTaskDelay`, and its trace holds one failed `assert` when
it aborts and none otherwise. -/
theorem respond_ending_counts (cfg : Config) (c l u : ℚ) (env : DisplayEnv)
    (st : DisplayState) :
    delays (RespondToDetection cfg c l u env st).trace = 0 ∧
    assert_failures (RespondToDetection cfg c l u env st).trace =
      (if (RespondToDetection cfg c l u env st).ctl = .aborted then 1 else 0) := by
  obtain ⟨cc, si, lb, cb⟩ := st
  obtain ⟨fb, fa, ca, co, lo, la, db⟩ := env
  cases cc <;> cases cb <;> cases ca <;> cases co <;> cases lo <;> cases la <;> cases db <;>
    exact ⟨rfl, rfl⟩

/-- The responder never calls `vTaskDelay`; it returns without a failed `assert` or aborts
at exactly one. -/
theorem respond_ending (cfg : Config) (c l u : ℚ) (env : DisplayEnv) (st : DisplayState) :
    delays (RespondToDetection cfg c l u env st).trace = 0 ∧
    (((RespondToDetection cfg c l u env st).ctl = .returned ∧
        assert_failures (RespondToDetection cfg c l u env st).trace = 0) ∨
      ((RespondToDetection cfg c l u env st).ctl = .aborted ∧
        assert_failures (RespondToDetection cfg c l u env st).trace = 1)) := by
  obtain ⟨hd, ha⟩ := respond_ending_counts cfg c l u env st
  have hnf := respond_ctl_ne_fault cfg c l u env st
  refine ⟨hd, ?_⟩
  cases hctl : (RespondToDetection cfg c l u env st).ctl with
  | returned =>
    left
    rw [hctl] at ha
    exact ⟨rfl, ha⟩
  | aborted =>
    right
    rw [hctl] at ha
    exact ⟨rfl, ha⟩
  | fault => exact absurd hctl hnf

/-- The responder returns when the canvas exists or the object creations succeed. -/
theorem respond_returns (cfg : Config) (c l u : ℚ) (env : DisplayEnv) (st : DisplayState)
    (h : st.camera_canvas = .valid ∨
      (env.canvas_obj = .valid ∧ env.led_obj = .valid ∧ env.label_obj = .valid)) :
    (RespondToDetection cfg c l u env st).ctl = .returned := by
  obtain ⟨cc, si, lb, cb⟩ := st
  obtain ⟨fb, fa, ca, co, lo, la, db⟩ := env
  simp only at h
  cases cc <;> cases co <;> cases lo <;> cases la <;> simp at h <;>
    cases cb <;> cases ca <;> cases db <;> rfl

/-- The events of one cycle of `loop` after a successful `setup`. -/
theorem loop_trace_shape (cfg : Config) (env : CycleEnv) (st : MainState)
    (hin : st.input = .valid) (hi : st.interpreter = .valid) :
    (loop cfg env st).trace =
      [.GetImage cfg.kNumCols cfg.kNumRows cfg.kNumChannels] ++
      (if env.capture_ok then [] else [.MicroPrintf "Image capture failed." []]) ++
      [.Invoke] ++
      (if env.invoke_ok then [] else [.MicroPrintf "Invoke failed." []]) ++
      [.interpreter_output 0,
       .RespondToDetection env.cup_score_f env.laptop_score_f env.unknown_score_f] ++
      (RespondToDetection cfg env.cup_score_f env.laptop_score_f env.unknown_score_f
        env.display st.display).trace ++
      (if (RespondToDetection cfg env.cup_score_f env.laptop_score_f env.unknown_score_f
        env.display st.display).ctl = .returned then [.vTaskDelay 2] else []) ∧
    (loop cfg env st).ctl =
      (RespondToDetection cfg env.cup_score_f env.laptop_score_f env.unknown_score_f
        env.display st.display).ctl ∧
    (loop cfg env st).ctl ≠ .fault ∧
    responses (loop cfg env st).trace = 1 ∧
    invocations (loop cfg env st).trace = 1 := by
  obtain ⟨hri, hrr⟩ := respond_trace_counts cfg env.cup_score_f env.laptop_score_f
    env.unknown_score_f env.display st.display
  have hnf := respond_ctl_ne_fault cfg env.cup_score_f env.laptop_score_f
    env.unknown_score_f env.display st.display
  unfold loop
  simp only [hin, hi, respond_step, invoke_step]
  cases hco : env.capture_ok <;> cases hio : env.invoke_ok <;>
    cases hctl : (RespondToDetection cfg env.cup_score_f env.laptop_score_f env.unknown_score_f
      env.display st.display).ctl <;>
    simp_all [invocations, responses, invocations_append, responses_append]

/-- C8 as stated fails: in a cycle whose capture and invocation both succeed, a null result
of `lv_canvas_create` fails the `assert` of `create_gui` inside `RespondToDetection`; the
cycle ends aborted and `vTaskDelay` is not called. -/
theorem loop_aborts_on_failed_assert :
    cycle_canvas_fails.capture_ok = true ∧ cycle_canvas_fails.invoke_ok = true ∧
    (loop example_config cycle_canvas_fails ready_state).ctl = .aborted ∧
    delays (loop example_config cycle_canvas_fails ready_state).trace = 0 ∧
    responses (loop example_config cycle_canvas_fails ready_state).trace = 1 := by
  refine ⟨rfl, rfl, rfl, rfl, rfl⟩

/-- C8, amended: in a cycle of `loop` after a successful `setup`, whatever the capture and
the invocation report, `loop` logs "Image capture failed." exactly when the capture failed
and "Invoke failed." exactly when the invocation failed, and goes on to call
`RespondToDetection` once; it never faults.  When that call returns, `loop` calls
`vTaskDelay` once and returns; this is the case whenever the canvas exists already or the
three object creations of `create_gui` succeed.  Otherwise the cycle ends aborted at the one
failed `assert` of `create_gui`, without `vTaskDelay`. -/
theorem loop_cycle_trace (cfg : Config) (env : CycleEnv) (st : MainState)
    (hin : st.input = .valid) (hi : st.interpreter = .valid) :
    (loop cfg env st).trace =
      [.GetImage cfg.kNumCols cfg.kNumRows cfg.kNumChannels] ++
      (if env.capture_ok then [] else [.MicroPrintf "Image capture failed." []]) ++
      [.Invoke] ++
      (if env.invoke_ok then [] else [.MicroPrintf "Invoke failed." []]) ++
      [.interpreter_output 0,
       .RespondToDetection env.cup_score_f env.laptop_score_f env.unknown_score_f] ++
      (RespondToDetection cfg env.cup_score_f env.laptop_score_f env.unknown_score_f
        env.display st.display).trace ++
      (if (RespondToDetection cfg env.cup_score_f env.laptop_score_f env.unknown_score_f
        env.display st.display).ctl = .returned then [.vTaskDelay 2] else []) ∧
    (loop cfg env st).ctl =
      (RespondToDetection cfg env.cup_score_f env.laptop_score_f env.unknown_score_f
        env.display st.display).ctl ∧
    (loop cfg env st).ctl ≠ .fault ∧
    responses (loop cfg env st).trace = 1 ∧
    invocations (loop cfg env st).trace = 1 ∧
    (((loop cfg env st).ctl = .returned ∧ delays (loop cfg env st).trace = 1 ∧
        assert_failures (loop cfg env st).trace = 0) ∨
      ((loop cfg env st).ctl = .aborted ∧ delays (loop cfg env st).trace = 0 ∧
        assert_failures (loop cfg env st).trace = 1)) ∧
    (st.display.camera_canvas = .valid ∨
        (env.display.canvas_obj = .valid ∧ env.display.led_obj = .valid ∧
          env.display.label_obj = .valid) →
      (loop cfg env st).ctl = .returned ∧ delays (loop cfg env st).trace = 1) := by
  obtain ⟨ht, hc, hnf, hr, hiv⟩ := loop_trace_shape cfg env st hin hi
  obtain ⟨hd0, hends⟩ := respond_ending cfg env.cup_score_f env.laptop_score_f
    env.unknown_score_f env.display st.display
  have hret := respond_returns cfg env.cup_score_f env.laptop_score_f
    env.unknown_score_f env.display st.display
  have hcount : ((loop cfg env st).ctl = .returned ∧ delays (loop cfg env st).trace = 1 ∧
        assert_failures (loop cfg env st).trace = 0) ∨
      ((loop cfg env st).ctl = .aborted ∧ delays (loop cfg env st).trace = 0 ∧
        assert_failures (loop cfg env st).trace = 1) := by
    rw [hc, ht]
    rcases hends with ⟨h1, h2⟩ | ⟨h1, h2⟩
    · left
      refine ⟨h1, ?_, ?_⟩
      · cases env.capture_ok <;> cases env.invoke_ok <;>
          simp [h1, delays, delays_append, hd0]
      · cases env.capture_ok <;> cases env.invoke_ok <;>
          simp [h1, assert_failures, assert_failures_append, h2]
    · right
      refine ⟨h1, ?_, ?_⟩
      · cases env.capture_ok <;> cases env.invoke_ok <;>
          simp [h1, delays, delays_append, hd0]
      · cases env.capture_ok <;> cases env.invoke_ok <;>
          simp [h1, assert_failures, assert_failures_append, h2]
  refine ⟨ht, hc, hnf, hr, hiv, hcount, fun hok => ?_⟩
  have hrc : (loop cfg env st).ctl = .returned := by
    rw [hc]
    exact hret hok
  rcases hcount with ⟨-, h2, -⟩ | ⟨h1, -, -⟩
  · exact ⟨hrc, h2⟩
  · rw [hrc] at h1
    exact absurd h1 (by decide)

/-- A cycle with a failed capture returns after one response. -/
theorem loop_cycle_trace_witness :
    (loop example_config cycle_capture_fails ready_state).ctl = .returned ∧
    responses (loop example_config cycle_capture_fails ready_state).trace = 1 :=
  have h := loop_cycle_trace example_config cycle_capture_fails ready_state rfl rfl
  ⟨h.2.1.trans rfl, h.2.2.2.1⟩

/-- Flipping the top bit of a byte and reading it as `int8_t` subtracts 128. -/
theorem to_int8_xor (b : ℕ) (hb : b < 256) : to_int8 (b ^^^ 0x80) = (b : ℤ) - 128 := by
  interval_cases b <;> rfl

/-- The copy loop leaves elements from index `n` on untouched. -/
theorem copy_loop_above (ptr : ℕ → ℕ) (data : ℕ → ℤ) (n i : ℕ) (h : n ≤ i) :
    copy_loop ptr n data i = data i := by
  induction n with
  | zero => rfl
  | succ m ih =>
    unfold copy_loop
    rw [Function.update_noteq (by omega), ih (by omega)]

/-- The copy loop stores the converted byte in every element below `n`. -/
theorem copy_loop_below (ptr : ℕ → ℕ) (data : ℕ → ℤ) (n i : ℕ) (h : i < n) :
    copy_loop ptr n data i = to_int8 ((ptr i % 256) ^^^ 0x80) := by
  induction n with
  | zero => omega
  | succ m ih =>
    unfold copy_loop
    by_cases hi : i = m
    · subst hi
      rw [Function.update_same]
    · rw [Function.update_noteq hi, ih (by omega)]

/-- C10: after the copy loop of `run_inference`, element `i < kNumCols * kNumRows` of the
input tensor holds byte `i` of the buffer minus 128 and the elements from
`kNumCols * kNumRows` on are unchanged; the conversion maps every byte `b` to `b - 128`
(0 to -128, 128 to 0, 255 to 127) and is strictly increasing; these are the contents on
which `run_inference` invokes the interpreter. -/
theorem run_inference_input (cfg : Config) (ptr : ℕ → ℕ) (env : CycleEnv) (st : MainState) :
    (∀ i, i < cfg.kNumCols * cfg.kNumRows →
      copy_loop ptr (cfg.kNumCols * cfg.kNumRows) st.input_data i =
        ((ptr i % 256 : ℕ) : ℤ) - 128) ∧
    (∀ i, cfg.kNumCols * cfg.kNumRows ≤ i →
      copy_loop ptr (cfg.kNumCols * cfg.kNumRows) st.input_data i = st.input_data i) ∧
    (∀ b, b < 256 → to_int8 (b ^^^ 0x80) = (b : ℤ) - 128) ∧
    to_int8 (0 ^^^ 0x80) = -128 ∧ to_int8 (128 ^^^ 0x80) = 0 ∧ to_int8 (255 ^^^ 0x80) = 127 ∧
    (∀ a b, a < b → b < 256 → to_int8 (a ^^^ 0x80) < to_int8 (b ^^^ 0x80)) ∧
    (st.input = .valid → st.interpreter = .valid →
      (run_inference cfg ptr env st).st.input_data =
        env.after_invoke (copy_loop ptr (cfg.kNumCols * cfg.kNumRows) st.input_data)) := by
  refine ⟨?_, ?_, to_int8_xor, rfl, rfl, rfl, ?_, ?_⟩
  · intro i hi
    rw [copy_loop_below ptr _ _ i hi]
    exact to_int8_xor _ (Nat.mod_lt _ (by norm_num))
  · intro i hi
    exact copy_loop_above ptr _ _ i hi
  · intro a b hab hb
    rw [to_int8_xor a (by omega), to_int8_xor b hb]
    omega
  · intro hin hi
    simp [run_inference, hin, hi, respond_step]

/-- Byte 200 of the buffer, here the value 200, is stored as 72. -/
theorem run_inference_input_witness :
    (run_inference example_config (fun i => i) cycle_capture_fails ready_state).st.input_data 200
      = 72 := by
  have h := run_inference_input example_config (fun i => i) cycle_capture_fails ready_state
  have h1 := h.1 200 (by simp [example_config])
  have h2 := h.2.2.2.2.2.2.2 rfl rfl
  rw [h2]
  simp only [cycle_capture_fails, id]
  rw [h1]
  norm_num

end ObjectDetection
